import Mathlib

/-!
# Verification development for the scene viewer (ViewManager.cpp, SceneManager.cpp)

Shallow embedding of the camera/view controller and of the texture and material
registries.  C++ `float`/`double` values are modelled by exact rationals, except in
the cursor callback, whose double-to-float conversions and float subtractions round to
the nearest binary32 value.  The process-wide globals of each translation unit are one
explicit state record that every operation takes and returns.
-/

namespace Viewer

/-! ## Data model of ViewManager.cpp -/

/-- A `glm::vec3` with exact rational components. -/
structure Vec3 where
  x : ℚ
  y : ℚ
  z : ℚ
deriving DecidableEq, Repr

/-- Component-wise sum of two vectors (`glm::vec3 operator+`). -/
def Vec3.add (a b : Vec3) : Vec3 := ⟨a.x + b.x, a.y + b.y, a.z + b.z⟩

/-- Component-wise difference of two vectors (`glm::vec3 operator-`). -/
def Vec3.sub (a b : Vec3) : Vec3 := ⟨a.x - b.x, a.y - b.y, a.z - b.z⟩

/-- Vector scaled by a scalar (`glm::vec3 operator*`). -/
def Vec3.smul (a : Vec3) (k : ℚ) : Vec3 := ⟨a.x * k, a.y * k, a.z * k⟩

/-- The `Camera_Movement` direction passed to `Camera::ProcessKeyboard`. -/
inductive Camera_Movement where
  | FORWARD
  | BACKWARD
  | LEFT
  | RIGHT
  | UP
  | DOWN
deriving DecidableEq, Repr

/-- Modelled from the spec: the `Camera` class is declared in a header that is not
among the sources.  The record holds the members ViewManager.cpp reads or writes
(`Position`, `Front`, `Up`, `Zoom`, `MovementSpeed`) and the `Right` basis vector
that the spec's `moveRelative` translates along (spec 3 CameraPose, 4.5). -/
structure Camera where
  Position : Vec3
  Front : Vec3
  Up : Vec3
  Right : Vec3
  Zoom : ℚ
  MovementSpeed : ℚ
deriving DecidableEq, Repr

/-- Modelled from the spec: `Camera::ProcessKeyboard`, absent from the sources.
Spec 4.5: `moveRelative(direction, deltaDistance)` translates the position along the
front/right/up basis vectors scaled by `deltaDistance`. -/
def Camera.ProcessKeyboard (c : Camera) (direction : Camera_Movement) (deltaDistance : ℚ) : Camera :=
  match direction with
  | .FORWARD => { c with Position := c.Position.add (c.Front.smul deltaDistance) }
  | .BACKWARD => { c with Position := c.Position.sub (c.Front.smul deltaDistance) }
  | .LEFT => { c with Position := c.Position.sub (c.Right.smul deltaDistance) }
  | .RIGHT => { c with Position := c.Position.add (c.Right.smul deltaDistance) }
  | .UP => { c with Position := c.Position.add (c.Up.smul deltaDistance) }
  | .DOWN => { c with Position := c.Position.sub (c.Up.smul deltaDistance) }

/-- Modelled from the spec: the object `new Camera()` yields, used only as a concrete
starting camera in evaluations.  `Right` is the normalised cross product of the
constructor's `Front` and `Up`, which is exactly (1,0,0); the speed is the base 2.5. -/
def Camera.default : Camera :=
  { Position := ⟨0, 0, 0⟩, Front := ⟨0, 0, -1⟩, Up := ⟨0, 1, 0⟩, Right := ⟨1, 0, 0⟩,
    Zoom := 45, MovementSpeed := 5 / 2 }

/-- The globals of the anonymous namespace of ViewManager.cpp (lines 30-56) together
with the window's close-request flag. -/
structure ViewState where
  g_pCamera : Option Camera
  gLastX : ℚ
  gLastY : ℚ
  gFirstMouse : Bool
  gDeltaTime : ℚ
  gLastFrame : ℚ
  bOrthographicProjection : Bool
  gMoveSpeed : ℚ
  gWasPDown : Bool
  gWasODown : Bool
  gSavedCamValid : Bool
  gSavedPos : Vec3
  gSavedFront : Vec3
  gSavedUp : Vec3
  windowShouldClose : Bool
deriving DecidableEq, Repr

/-- Result of `glfwGetKey(...) == GLFW_PRESS` for each key polled in one frame. -/
structure KeyState where
  KEY_ESCAPE : Bool
  KEY_W : Bool
  KEY_S : Bool
  KEY_A : Bool
  KEY_D : Bool
  KEY_Q : Bool
  KEY_E : Bool
  KEY_P : Bool
  KEY_O : Bool
deriving DecidableEq, Repr

/-- No key pressed at all. -/
def KeyState.none : KeyState :=
  ⟨false, false, false, false, false, false, false, false, false⟩

/-- Some translation key (W/S/A/D/Q/E) is held. -/
def KeyState.moves (k : KeyState) : Bool :=
  k.KEY_W || k.KEY_S || k.KEY_A || k.KEY_D || k.KEY_Q || k.KEY_E

/-- What one frame reads from the outside: `glfwGetTime()` and the polled keys. -/
structure FrameInput where
  currentFrame : ℚ
  keys : KeyState
deriving DecidableEq, Repr

/-- The type of `Camera::ProcessKeyboard`, taken as a parameter by the controller. -/
abbrev KeyboardHandler := Camera → Camera_Movement → ℚ → Camera

/-- The type of `Camera::ProcessMouseMovement` (yaw/pitch look, trigonometric, absent
from the sources), taken as a parameter by the controller. -/
abbrev MouseHandler := Camera → ℚ → ℚ → Camera

/-- State after the namespace initialisers (lines 34-56) and the constructor
`ViewManager::ViewManager` (lines 71-75), where `newCamera` is what `new Camera()` built. -/
def ViewManager.ctor (newCamera : Camera) : ViewState :=
  { g_pCamera := some { newCamera with
      Position := ⟨0, 1 / 2, 2⟩, Front := ⟨0, -(15 / 100), -1⟩, Up := ⟨0, 1, 0⟩, Zoom := 45 }
    gLastX := 1000 * (1 / 2)
    gLastY := 800 * (1 / 2)
    gFirstMouse := true
    gDeltaTime := 0
    gLastFrame := 0
    bOrthographicProjection := false
    gMoveSpeed := 5 / 2
    gWasPDown := false
    gWasODown := false
    gSavedCamValid := false
    gSavedPos := ⟨0, 0, 0⟩
    gSavedFront := ⟨0, 0, 0⟩
    gSavedUp := ⟨0, 0, 0⟩
    windowShouldClose := false }

/-- Lines 203-216 of `ProcessKeyboardEvents`: the six conditional `ProcessKeyboard`
calls, in source order, each with the same `dtSpeed`. -/
def applyMovement (kbd : KeyboardHandler) (k : KeyState) (dtSpeed : ℚ) (cam0 : Camera) : Camera :=
  let cam1 := if k.KEY_W then kbd cam0 .FORWARD dtSpeed else cam0
  let cam2 := if k.KEY_S then kbd cam1 .BACKWARD dtSpeed else cam1
  let cam3 := if k.KEY_A then kbd cam2 .LEFT dtSpeed else cam2
  let cam4 := if k.KEY_D then kbd cam3 .RIGHT dtSpeed else cam3
  let cam5 := if k.KEY_Q then kbd cam4 .UP dtSpeed else cam4
  if k.KEY_E then kbd cam5 .DOWN dtSpeed else cam5

/-- Lines 222-236 of `ProcessKeyboardEvents`: the P toggle.  On a rising edge of P the
mode becomes Perspective and a valid saved pose is restored and invalidated; the edge
flag is updated in every case. -/
def togglePerspective (pDown : Bool) (s : ViewState) (cam : Camera) : ViewState × Camera :=
  let r : ViewState × Camera :=
    if pDown && !s.gWasPDown then
      let s1 := { s with bOrthographicProjection := false }
      if s1.gSavedCamValid then
        ({ s1 with gSavedCamValid := false },
         { cam with Position := s1.gSavedPos, Front := s1.gSavedFront, Up := s1.gSavedUp })
      else (s1, cam)
    else (s, cam)
  ({ r.1 with gWasPDown := pDown }, r.2)

/-- Lines 238-258 of `ProcessKeyboardEvents`: the O toggle.  On a rising edge of O the
current pose is saved when the mode is not yet Orthographic, the mode becomes
Orthographic and the camera is set to the inspection pose; the edge flag is updated in
every case. -/
def toggleOrthographic (oDown : Bool) (s : ViewState) (cam : Camera) : ViewState × Camera :=
  let r : ViewState × Camera :=
    if oDown && !s.gWasODown then
      let s1 :=
        if !s.bOrthographicProjection then
          { s with gSavedCamValid := true, gSavedPos := cam.Position,
                   gSavedFront := cam.Front, gSavedUp := cam.Up }
        else s
      ({ s1 with bOrthographicProjection := true },
       { cam with Position := ⟨0, 0, 3⟩, Front := ⟨0, 0, -1⟩, Up := ⟨0, 1, 0⟩ })
    else (s, cam)
  ({ r.1 with gWasODown := oDown }, r.2)

/-- The method `ViewManager::ProcessKeyboardEvents` (lines 185-259). -/
def ProcessKeyboardEvents (kbd : KeyboardHandler) (s0 : ViewState) (k : KeyState) : ViewState :=
  let s1 := if k.KEY_ESCAPE then { s0 with windowShouldClose := true } else s0
  match s1.g_pCamera with
  | none => s1
  | some cam0 =>
    let dt := s1.gDeltaTime
    let dtSpeed := dt * (s1.gMoveSpeed / (5 / 2))
    let cam1 := applyMovement kbd k dtSpeed cam0
    let pDown := k.KEY_P
    let oDown := k.KEY_O
    let r1 := togglePerspective pDown s1 cam1
    let r2 := toggleOrthographic oDown r1.1 r1.2
    { r2.1 with g_pCamera := some r2.2 }

/-- The state effect of `ViewManager::PrepareSceneView` (lines 266-307): frame timing,
then `ProcessKeyboardEvents`.  The view and projection matrices it pushes to the shader
afterwards are computed from this state and change none of it. -/
def PrepareSceneView (kbd : KeyboardHandler) (s : ViewState) (i : FrameInput) : ViewState :=
  let currentFrame := i.currentFrame
  let s1 := { s with gDeltaTime := currentFrame - s.gLastFrame, gLastFrame := currentFrame }
  ProcessKeyboardEvents kbd s1 i.keys

/-- Round to the nearest integer, ties to the even one. -/
def roundHalfEven (m : ℚ) : ℤ :=
  let f := ⌊m⌋
  let r := m - f
  if r < 1 / 2 then f
  else if 1 / 2 < r then f + 1
  else if f % 2 = 0 then f else f + 1

/-- The binary exponent of the float nearest to a non-zero `q`: the floor of its base-2
logarithm, held at -126 in the subnormal range. -/
def floatExponent (q : ℚ) : ℤ := max (Int.log 2 |q|) (-126)

/-- The value a C++ `float` (IEEE-754 binary32, 24 significant bits) takes for the exact
result `q`, in the default round-to-nearest-even mode: what `static_cast<float>` makes
of a `double` and what a `float` subtraction makes of the exact difference.  Magnitudes
of 2^128 and more, which no finite float holds, are outside the model; cursor
coordinates are window coordinates far below that. -/
def roundToFloat (q : ℚ) : ℚ :=
  if q = 0 then 0
  else
    let ulp : ℚ := 2 ^ (floatExponent q - 23)
    (if q < 0 then -1 else 1) * (roundHalfEven (|q| / ulp) : ℚ) * ulp

/-- The callback `ViewManager::Mouse_Position_Callback` (lines 136-158); the positions
are converted to `float` (lines 138-139), the offsets are `float` differences (lines
148-149), and the look deltas handed to the camera are `xoffset` and `yoffset`. -/
def Mouse_Position_Callback (look : MouseHandler) (s : ViewState) (xMousePos yMousePos : ℚ) :
    ViewState :=
  let xpos := roundToFloat xMousePos
  let ypos := roundToFloat yMousePos
  let s1 := if s.gFirstMouse then { s with gLastX := xpos, gLastY := ypos, gFirstMouse := false }
            else s
  let xoffset := roundToFloat (xpos - s1.gLastX)
  let yoffset := roundToFloat (s1.gLastY - ypos)
  let s2 := { s1 with gLastX := xpos, gLastY := ypos }
  match s2.g_pCamera with
  | some cam => { s2 with g_pCamera := some (look cam xoffset yoffset) }
  | none => s2

/-- The camera currently holds the given position, front and up vectors. -/
def HasPose (s : ViewState) (pos front up : Vec3) : Prop :=
  ∃ cam, s.g_pCamera = some cam ∧ cam.Position = pos ∧ cam.Front = front ∧ cam.Up = up

/-- The camera holds the fixed inspection pose of lines 254-256. -/
def InspectionPose (s : ViewState) : Prop :=
  HasPose s ⟨0, 0, 3⟩ ⟨0, 0, -1⟩ ⟨0, 1, 0⟩

/-- The saved pose (gSavedPos, gSavedFront, gSavedUp) is the given triple. -/
def SavedPose (s : ViewState) (pos front up : Vec3) : Prop :=
  s.gSavedPos = pos ∧ s.gSavedFront = front ∧ s.gSavedUp = up

/-! ## Data model of SceneManager.cpp -/

/-- One element of the `m_textureIDs` array: the GL texture handle and its tag. -/
structure TEXTURE_INFO where
  ID : Nat
  tag : String
deriving DecidableEq, Repr

/-- Modelled from the spec: the capacity of the fixed array `m_textureIDs`, declared in
a header that is not among the sources.  The comment of `BindGLTextures` (line 141,
"There are up to 16 slots") and spec 4.1 ("nominally 16") give it as 16. -/
def kTextureSlots : Nat := 16

/-- The texture registry of `SceneManager`: the fixed array `m_textureIDs` (the list's
length is the array's declared capacity) and the count `m_loadedTextures` of registered
slots, which never exceeds the capacity.  Entries at or above the count are stale. -/
structure TextureRegistry where
  m_textureIDs : List TEXTURE_INFO
  m_loadedTextures : Nat
  inBounds : m_loadedTextures ≤ m_textureIDs.length
deriving DecidableEq

/-- The registry the constructor `SceneManager::SceneManager` leaves (line 68): no slot
registered; `slots` is the default-constructed array. -/
def TextureRegistry.ctor (slots : List TEXTURE_INFO) : TextureRegistry :=
  ⟨slots, 0, Nat.zero_le _⟩

/-- The tag of the registered slot `i`, or `none` when `i` is not below the loaded count. -/
def TextureRegistry.tagAt (reg : TextureRegistry) (i : Nat) : Option String :=
  if i < reg.m_loadedTextures then (reg.m_textureIDs.get? i).map TEXTURE_INFO.tag else none

/-- The handle of the registered slot `i`, or `none` when `i` is not below the loaded count. -/
def TextureRegistry.idAt (reg : TextureRegistry) (i : Nat) : Option Nat :=
  if i < reg.m_loadedTextures then (reg.m_textureIDs.get? i).map TEXTURE_INFO.ID else none

/-- Some registered slot (index below the loaded count) carries the tag. -/
def TextureRegistry.Registered (reg : TextureRegistry) (tag : String) : Prop :=
  ∃ i, reg.tagAt i = some tag

/-- What `stbi_load` hands back on success; only its being non-null is used. -/
structure ImageData where
  width : Nat
  height : Nat
deriving DecidableEq, Repr

/-- The method `SceneManager::CreateGLTexture` (lines 91-135).  `stbi_load` is the image
decoder (`none` is the null pointer), `textureID` the handle `glGenTextures` produces.
The result is the returned flag and the registry afterwards; it is `none` when the
write `m_textureIDs[m_loadedTextures]` at line 129 falls outside the array, for which
C++ defines no behaviour. -/
def CreateGLTexture (stbi_load : String → Option ImageData) (textureID : Nat)
    (reg : TextureRegistry) (filename : String) (tag : String) :
    Option (Bool × TextureRegistry) :=
  match stbi_load filename with
  | none => some (false, reg)
  | some _ =>
    if h : reg.m_loadedTextures < reg.m_textureIDs.length then
      let ids1 := reg.m_textureIDs.set reg.m_loadedTextures
        { reg.m_textureIDs.get ⟨reg.m_loadedTextures, h⟩ with ID := textureID }
      let ids2 := ids1.set reg.m_loadedTextures
        { ids1.get ⟨reg.m_loadedTextures, by simpa [ids1] using h⟩ with tag := tag }
      some (true, ⟨ids2, reg.m_loadedTextures + 1, by simpa [ids2, ids1] using h⟩)
    else none

/-- The `while` loop of `FindTextureSlot` (lines 204-213) on its three locals. -/
def FindTextureSlot.loop (reg : TextureRegistry) (tag : String)
    (textureSlot : Int) (index : Nat) (bFound : Bool) : Int :=
  if h : index < reg.m_loadedTextures ∧ bFound = false then
    if (reg.m_textureIDs.get ⟨index, lt_of_lt_of_le h.1 reg.inBounds⟩).tag = tag then
      FindTextureSlot.loop reg tag (index : Int) index true
    else
      FindTextureSlot.loop reg tag textureSlot (index + 1) bFound
  else textureSlot
termination_by (reg.m_loadedTextures - index) + (if bFound then 0 else 1)
decreasing_by
  all_goals simp_wf
  · simp [h.2]
  · have := h.1
    omega

/-- The method `SceneManager::FindTextureSlot` (lines 198-216): the slot index of the
tag, or -1. -/
def FindTextureSlot (reg : TextureRegistry) (tag : String) : Int :=
  FindTextureSlot.loop reg tag (-1) 0 false

/-- One element of `m_objectMaterials`. -/
structure OBJECT_MATERIAL where
  ambientColor : Vec3
  ambientStrength : ℚ
  diffuseColor : Vec3
  specularColor : Vec3
  shininess : ℚ
  tag : String
deriving DecidableEq, Repr

/-- The `while` loop of `FindMaterial` (lines 233-248) on its locals and the
out-parameter `material`. -/
def FindMaterial.loop (m_objectMaterials : List OBJECT_MATERIAL) (tag : String)
    (material : OBJECT_MATERIAL) (index : Nat) (bFound : Bool) : OBJECT_MATERIAL × Nat × Bool :=
  if h : index < m_objectMaterials.length ∧ bFound = false then
    let entry := m_objectMaterials.get ⟨index, h.1⟩
    if entry.tag = tag then
      FindMaterial.loop m_objectMaterials tag
        { material with
          ambientColor := entry.ambientColor
          ambientStrength := entry.ambientStrength
          diffuseColor := entry.diffuseColor
          specularColor := entry.specularColor
          shininess := entry.shininess } index true
    else
      FindMaterial.loop m_objectMaterials tag material (index + 1) bFound
  else (material, index, bFound)
termination_by (m_objectMaterials.length - index) + (if bFound then 0 else 1)
decreasing_by
  all_goals simp_wf
  · simp [h.2]
  · have := h.1
    omega

/-- The method `SceneManager::FindMaterial` (lines 224-251): the returned flag and the
out-parameter `material` afterwards.  Line 250 returns `true` whenever the list is
non-empty, whatever `bFound` is. -/
def FindMaterial (m_objectMaterials : List OBJECT_MATERIAL) (tag : String)
    (material : OBJECT_MATERIAL) : Bool × OBJECT_MATERIAL :=
  if m_objectMaterials.length = 0 then (false, material)
  else
    let r := FindMaterial.loop m_objectMaterials tag material 0 false
    (true, r.1)

/-- A value handed to the shader manager by one of its setters. -/
inductive UniformValue where
  | int (v : Int)
  | float (v : ℚ)
  | vec2 (x y : ℚ)
  | vec3 (v : Vec3)
  | vec4 (r g b a : ℚ)
  | sampler2D (slot : Int)
  | mat4 (m : Matrix (Fin 4) (Fin 4) ℚ)
deriving DecidableEq

/-- One write to the uniform sink: the uniform's name and the value. -/
abbrev UniformWrite := String × UniformValue

/-- The method `SceneManager::SetShaderMaterial` (lines 375-393): the writes it issues
to the shader manager, in order (`m_pShaderManager` is dereferenced unchecked).
`material` is the initial content of the local `OBJECT_MATERIAL material`, which the
source leaves uninitialised. -/
def SetShaderMaterial (m_objectMaterials : List OBJECT_MATERIAL) (materialTag : String)
    (material : OBJECT_MATERIAL) : List UniformWrite :=
  if m_objectMaterials.length > 0 then
    let r := FindMaterial m_objectMaterials materialTag material
    let bReturn := r.1
    let material := r.2
    if bReturn = true then
      [("material.ambientColor", .vec3 material.ambientColor),
       ("material.ambientStrength", .float material.ambientStrength),
       ("material.diffuseColor", .vec3 material.diffuseColor),
       ("material.specularColor", .vec3 material.specularColor),
       ("material.shininess", .float material.shininess)]
    else []
  else []

/-- The five material uniform names written by `SetShaderMaterial`. -/
def materialUniforms : List String :=
  ["material.ambientColor", "material.ambientStrength", "material.diffuseColor",
   "material.specularColor", "material.shininess"]

/-! ## Event traces of the view controller -/

/-- An input the view controller reacts to: a frame (time and key poll) or a cursor
event delivered to `Mouse_Position_Callback`. -/
inductive InputEvent where
  | frame (i : FrameInput)
  | cursor (x y : ℚ)
deriving DecidableEq, Repr

/-- The controller's reaction to one input event. -/
def dispatch (kbd : KeyboardHandler) (look : MouseHandler) (s : ViewState) : InputEvent → ViewState
  | .frame i => PrepareSceneView kbd s i
  | .cursor x y => Mouse_Position_Callback look s x y

/-- The state after a sequence of input events, oldest first. -/
def run (kbd : KeyboardHandler) (look : MouseHandler) (s : ViewState) (es : List InputEvent) :
    ViewState :=
  es.foldl (dispatch kbd look) s

/-- The state after a sequence of frames, oldest first. -/
def runFrames (kbd : KeyboardHandler) (s : ViewState) (fs : List FrameInput) : ViewState :=
  fs.foldl (PrepareSceneView kbd) s

/-- The claim's starting state: Perspective, no saved pose, both edge flags false. -/
def InitialMode (s : ViewState) : Prop :=
  s.bOrthographicProjection = false ∧ s.gSavedCamValid = false ∧
    s.gWasPDown = false ∧ s.gWasODown = false

/-- Key poll with only the listed toggle and movement keys pressed. -/
def keysOf (w p o : Bool) : KeyState :=
  { KeyState.none with KEY_W := w, KEY_P := p, KEY_O := o }

/-- The camera after the movement block of a frame that starts with camera `cam`. -/
def movedCamera (kbd : KeyboardHandler) (s : ViewState) (i : FrameInput) (cam : Camera) : Camera :=
  applyMovement kbd i.keys ((i.currentFrame - s.gLastFrame) * (s.gMoveSpeed / (5 / 2))) cam

/-- An input event that leaves an Orthographic view undisturbed: while the mode is
Orthographic no cursor event arrives, and a frame holds a movement key only when it also
has a rising edge of O or of P. -/
def Undisturbed (s : ViewState) : InputEvent → Prop
  | .frame i => s.bOrthographicProjection = true → i.keys.moves = true →
      (i.keys.KEY_O && !s.gWasODown) = true ∨ (i.keys.KEY_P && !s.gWasPDown) = true
  | .cursor _ _ => s.bOrthographicProjection = false

/-- Every event of the trace is undisturbed in the state it arrives in. -/
def UndisturbedTrace (kbd : KeyboardHandler) (look : MouseHandler) :
    ViewState → List InputEvent → Prop
  | _, [] => True
  | s, e :: es => Undisturbed s e ∧ UndisturbedTrace kbd look (dispatch kbd look s e) es

/-- The constructor's state with the spec-modelled default camera. -/
def startState : ViewState := ViewManager.ctor Camera.default

/-- The camera the constructor leaves in `startState`. -/
def startCamera : Camera :=
  { Camera.default with
    Position := ⟨0, 1 / 2, 2⟩, Front := ⟨0, -(15 / 100), -1⟩, Up := ⟨0, 1, 0⟩, Zoom := 45 }

/-- Frame at the given time with the given W, P and O key states, nothing else pressed. -/
def frameAt (t : ℚ) (w p o : Bool) : FrameInput := ⟨t, keysOf w p o⟩

/-! ## Load histories and sample registries -/

/-- One call of `CreateGLTexture`: its arguments and the handle `glGenTextures` would
hand out for it. -/
structure LoadRequest where
  filename : String
  tag : String
  textureID : Nat
deriving DecidableEq, Repr

/-- A sequence of `CreateGLTexture` calls, oldest first: the registry afterwards and the
tags of the calls that returned `true`, in call order; `none` when some call writes
outside the array. -/
def loadTextures (stbi_load : String → Option ImageData) :
    TextureRegistry → List LoadRequest → Option (TextureRegistry × List String)
  | reg, [] => some (reg, [])
  | reg, r :: rs =>
    match CreateGLTexture stbi_load r.textureID reg r.filename r.tag with
    | none => none
    | some (ok, reg1) =>
      match loadTextures stbi_load reg1 rs with
      | none => none
      | some (reg2, tags) => some (reg2, if ok then r.tag :: tags else tags)

/-- A decoder for which every file loads. -/
def decodeAll : String → Option ImageData := fun _ => some ⟨64, 64⟩

/-- An array of `kTextureSlots` default-constructed entries with nothing registered. -/
def emptyRegistry : TextureRegistry :=
  TextureRegistry.ctor (List.replicate kTextureSlots ⟨0, ""⟩)

/-- A registry whose `kTextureSlots` slots are all registered (sixteen successful loads
of the wood texture). -/
def fullRegistry : TextureRegistry :=
  ⟨List.replicate kTextureSlots ⟨1, "TEX_WOOD"⟩, kTextureSlots, by simp⟩

/-- A registry of capacity 16 holding the wood texture in slots 0 and 2 and the wall
texture in slot 1; slot 3 is a stale entry above the loaded count. -/
def sampleRegistry : TextureRegistry :=
  ⟨[⟨7, "TEX_WOOD"⟩, ⟨8, "TEX_WALL"⟩, ⟨9, "TEX_WOOD"⟩, ⟨10, "TEX_GLOSS"⟩] ++
      List.replicate 12 ⟨0, ""⟩, 3, by simp⟩

/-- A material list with a single entry tagged "wood". -/
def sampleMaterials : List OBJECT_MATERIAL :=
  [{ ambientColor := ⟨1 / 5, 1 / 5, 1 / 5⟩, ambientStrength := 3 / 10,
     diffuseColor := ⟨1 / 2, 2 / 5, 3 / 10⟩, specularColor := ⟨1 / 10, 1 / 10, 1 / 10⟩,
     shininess := 8, tag := "wood" }]

/-- Some content of the uninitialised local `material` of `SetShaderMaterial`. -/
def staleMaterial : OBJECT_MATERIAL :=
  { ambientColor := ⟨9, 9, 9⟩, ambientStrength := 9, diffuseColor := ⟨9, 9, 9⟩,
    specularColor := ⟨9, 9, 9⟩, shininess := 9, tag := "" }

/-- A decoder for which every file but "missing.png" loads. -/
def decodeKnown : String → Option ImageData :=
  fun f => if f = "missing.png" then none else some ⟨64, 64⟩

/-- Three load calls: wood, a file that fails to decode, wall. -/
def sampleLoads : List LoadRequest :=
  [⟨"wood_oak.jpg", "TEX_WOOD", 1⟩, ⟨"missing.png", "TEX_GLOSS", 2⟩,
   ⟨"paint_wall.jpg", "TEX_WALL", 3⟩]

/-! ## Scroll and cursor callbacks -/

/-- The constant `kMinSpeed` (line 47). -/
def kMinSpeed : ℚ := 1 / 2

/-- The constant `kMaxSpeed` (line 48). -/
def kMaxSpeed : ℚ := 15

/-- The callback `ViewManager::Mouse_Scroll_Callback` (lines 166-178): the speed moves by
half the scroll offset, is clamped from below and then from above, and is copied into
the camera when there is one. -/
def Mouse_Scroll_Callback (s : ViewState) (_xoffset yoffset : ℚ) : ViewState :=
  let g0 := s.gMoveSpeed + yoffset * (1 / 2)
  let g1 := if g0 < kMinSpeed then kMinSpeed else g0
  let g2 := if g1 > kMaxSpeed then kMaxSpeed else g1
  let s1 := { s with gMoveSpeed := g2 }
  match s1.g_pCamera with
  | some cam => { s1 with g_pCamera := some { cam with MovementSpeed := s1.gMoveSpeed } }
  | none => s1

/-- The state after a sequence of scroll events `(xoffset, yoffset)`, oldest first. -/
def runScrolls (s : ViewState) (offsets : List (ℚ × ℚ)) : ViewState :=
  offsets.foldl (fun st o => Mouse_Scroll_Callback st o.1 o.2) s

/-- The cursor position of the most recent cursor event of a trace, if any. -/
def lastCursor (es : List InputEvent) : Option (ℚ × ℚ) :=
  es.foldl (fun acc e => match e with
    | .cursor x y => some (x, y)
    | .frame _ => acc) none

/-- The look delta the claim assigns to a cursor event at `(x, y)`: (0, 0) when no
cursor event came before, otherwise `(x - xPrev, yPrev - y)` against the previous one. -/
def expectedDelta (previous : Option (ℚ × ℚ)) (x y : ℚ) : ℚ × ℚ :=
  match previous with
  | none => (0, 0)
  | some (xPrev, yPrev) => (x - xPrev, yPrev - y)

/-- The mouse-tracking globals agree with the cursor history: before any cursor event
`gFirstMouse` is still set; afterwards it is cleared and `gLastX`, `gLastY` hold the
float-converted position of the most recent cursor event. -/
def Tracks (s : ViewState) (previous : Option (ℚ × ℚ)) : Prop :=
  match previous with
  | none => s.gFirstMouse = true
  | some (xPrev, yPrev) =>
    s.gFirstMouse = false ∧ s.gLastX = roundToFloat xPrev ∧ s.gLastY = roundToFloat yPrev

/-- The look delta the callback computes for a cursor event at `(x, y)`: (0, 0) when no
cursor event came before, otherwise the float differences of the float-converted
positions against the previous cursor event. -/
def floatDelta (previous : Option (ℚ × ℚ)) (x y : ℚ) : ℚ × ℚ :=
  match previous with
  | none => (0, 0)
  | some (xPrev, yPrev) =>
    (roundToFloat (roundToFloat x - roundToFloat xPrev),
     roundToFloat (roundToFloat yPrev - roundToFloat y))

/-- A look handler that adds the deltas it receives to the front vector, used as a
concrete `Camera::ProcessMouseMovement` in evaluations. -/
def recordLook : MouseHandler :=
  fun c dx dy => { c with Front := c.Front.add ⟨dx, dy, 0⟩ }

/-! ## Transform and uniform bridge of SceneManager.cpp -/

/-- The floating-point library functions the GLM transforms call, taken as parameters:
`cos`, `sin`, `inversesqrt`, and the factor `degToRad` by which `glm::radians`
multiplies. -/
structure FloatMath where
  cos : ℚ → ℚ
  sin : ℚ → ℚ
  inversesqrt : ℚ → ℚ
  degToRad : ℚ

/-- A 4x4 matrix `glm::mat4`, written with row and column index (GLM itself stores
columns). -/
abbrev Mat4 := Matrix (Fin 4) (Fin 4) ℚ

/-- Modelled from the spec: the GLM library function `glm::radians`, absent from the
sources: degrees times a constant factor. -/
def glm.radians (fm : FloatMath) (degrees : ℚ) : ℚ := degrees * fm.degToRad

/-- Modelled from the spec: the GLM library function `glm::normalize`, absent from the
sources: the vector times the inverse square root of its squared length. -/
def glm.normalize (fm : FloatMath) (v : Vec3) : Vec3 :=
  v.smul (fm.inversesqrt (v.x * v.x + v.y * v.y + v.z * v.z))

/-- Modelled from the spec: the GLM library function `glm::scale(v)`, absent from the
sources: the diagonal matrix of the three scale factors (spec 4.3). -/
def glm.scale (v : Vec3) : Mat4 :=
  !![v.x, 0, 0, 0;
     0, v.y, 0, 0;
     0, 0, v.z, 0;
     0, 0, 0, 1]

/-- Modelled from the spec: the GLM library function `glm::translate(v)`, absent from
the sources: the identity with `v` in the fourth (translation) column (spec 4.3, 8). -/
def glm.translate (v : Vec3) : Mat4 :=
  !![1, 0, 0, v.x;
     0, 1, 0, v.y;
     0, 0, 1, v.z;
     0, 0, 0, 1]

/-- Modelled from the spec: the GLM library function `glm::rotate(angle, axis)`, absent
from the sources: the rotation by `angle` radians about the normalised axis through the
origin (spec 4.3), in GLM's axis-angle form with c = cos angle, s = sin angle and
temp = (1 - c) * axis. -/
def glm.rotate (fm : FloatMath) (angle : ℚ) (v : Vec3) : Mat4 :=
  let c := fm.cos angle
  let s := fm.sin angle
  let axis := glm.normalize fm v
  let temp := axis.smul (1 - c)
  !![c + temp.x * axis.x, temp.y * axis.x - s * axis.z, temp.z * axis.x + s * axis.y, 0;
     temp.x * axis.y + s * axis.z, c + temp.y * axis.y, temp.z * axis.y - s * axis.x, 0;
     temp.x * axis.z - s * axis.y, temp.y * axis.z + s * axis.x, c + temp.z * axis.z, 0;
     0, 0, 0, 1]

/-- The matrix `modelView` that `SceneManager::SetTransformations` composes (lines
293-301): `translation * rotationX * rotationY * rotationZ * scale`. -/
def SetTransformations.modelView (fm : FloatMath) (scaleXYZ : Vec3)
    (XrotationDegrees YrotationDegrees ZrotationDegrees : ℚ) (positionXYZ : Vec3) : Mat4 :=
  let scale := glm.scale scaleXYZ
  let rotationX := glm.rotate fm (glm.radians fm XrotationDegrees) ⟨1, 0, 0⟩
  let rotationY := glm.rotate fm (glm.radians fm YrotationDegrees) ⟨0, 1, 0⟩
  let rotationZ := glm.rotate fm (glm.radians fm ZrotationDegrees) ⟨0, 0, 1⟩
  let translation := glm.translate positionXYZ
  translation * rotationX * rotationY * rotationZ * scale

/-- The primitive meshes of `ShapeMeshes`. -/
inductive MeshKind where
  | plane
  | box
  | cylinder
  | sphere
deriving DecidableEq, Repr

/-- One operation issued to the rendering backend: a uniform write through the shader
manager, a mesh draw, or `glDepthMask`. -/
inductive BackendOp where
  | uniform (name : String) (value : UniformValue)
  | draw (mesh : MeshKind)
  | depthMask (flag : Bool)
deriving DecidableEq

/-- The part of a `SceneManager` object the bridge methods read: whether
`m_pShaderManager` is non-null, and the texture registry. -/
structure SceneManager where
  m_pShaderManager : Bool
  textures : TextureRegistry

/-- The method `SceneManager::SetTransformations` (lines 277-307): the backend
operations it issues. -/
def SetTransformations (fm : FloatMath) (self : SceneManager) (scaleXYZ : Vec3)
    (XrotationDegrees YrotationDegrees ZrotationDegrees : ℚ) (positionXYZ : Vec3) :
    List BackendOp :=
  let modelView := SetTransformations.modelView fm scaleXYZ XrotationDegrees YrotationDegrees
    ZrotationDegrees positionXYZ
  if self.m_pShaderManager then [.uniform "model" (.mat4 modelView)] else []

/-- The method `SceneManager::SetShaderColor` (lines 315-334): texturing is switched off
and the color is written. -/
def SetShaderColor (self : SceneManager) (redColorValue greenColorValue blueColorValue
    alphaValue : ℚ) : List BackendOp :=
  if self.m_pShaderManager then
    [.uniform "bUseTexture" (.int 0),
     .uniform "objectColor" (.vec4 redColorValue greenColorValue blueColorValue alphaValue)]
  else []

/-- The method `SceneManager::SetShaderTexture` (lines 342-353): texturing is switched
on and the sampler is set to the slot `FindTextureSlot` finds for the tag. -/
def SetShaderTexture (self : SceneManager) (textureTag : String) : List BackendOp :=
  if self.m_pShaderManager then
    let textureID := FindTextureSlot self.textures textureTag
    [.uniform "bUseTexture" (.int 1), .uniform "objectTexture" (.sampler2D textureID)]
  else []

/-- The method `SceneManager::SetTextureUVScale` (lines 361-367). -/
def SetTextureUVScale (self : SceneManager) (u v : ℚ) : List BackendOp :=
  if self.m_pShaderManager then [.uniform "UVscale" (.vec2 u v)] else []

/-- A concrete `FloatMath` for evaluations: second-order and first-order polynomials for
`cos` and `sin`, a constant `inversesqrt`, and 355/113 for pi. -/
def sampleMath : FloatMath :=
  { cos := fun a => 1 - a * a / 2
    sin := fun a => a
    inversesqrt := fun _ => 1
    degToRad := 355 / (113 * 180) }

/-! ## Scene composer of SceneManager.cpp -/

/-- A `glm::vec2`. -/
structure Vec2 where
  x : ℚ
  y : ℚ
deriving DecidableEq, Repr

/-- A `glm::vec4` used as a color. -/
structure Vec4 where
  r : ℚ
  g : ℚ
  b : ℚ
  a : ℚ
deriving DecidableEq, Repr

/-- The helper `DrawBox` of `RenderScene` (lines 429-430). -/
def RenderScene.DrawBox (fm : FloatMath) (self : SceneManager) (S Rdeg T : Vec3) (RGBA : Vec4) :
    List BackendOp :=
  SetTransformations fm self S Rdeg.x Rdeg.y Rdeg.z T ++
    SetShaderColor self RGBA.r RGBA.g RGBA.b RGBA.a ++ [.draw .box]

/-- The helper `DrawCyl` of `RenderScene` (lines 431-432). -/
def RenderScene.DrawCyl (fm : FloatMath) (self : SceneManager) (S Rdeg T : Vec3) (RGBA : Vec4) :
    List BackendOp :=
  SetTransformations fm self S Rdeg.x Rdeg.y Rdeg.z T ++
    SetShaderColor self RGBA.r RGBA.g RGBA.b RGBA.a ++ [.draw .cylinder]

/-- The helper `DrawSphere` of `RenderScene` (lines 433-434). -/
def RenderScene.DrawSphere (fm : FloatMath) (self : SceneManager) (S Rdeg T : Vec3)
    (RGBA : Vec4) : List BackendOp :=
  SetTransformations fm self S Rdeg.x Rdeg.y Rdeg.z T ++
    SetShaderColor self RGBA.r RGBA.g RGBA.b RGBA.a ++ [.draw .sphere]

/-- The helper `DrawPlane` of `RenderScene` (lines 435-436). -/
def RenderScene.DrawPlane (fm : FloatMath) (self : SceneManager) (S Rdeg T : Vec3)
    (RGBA : Vec4) : List BackendOp :=
  SetTransformations fm self S Rdeg.x Rdeg.y Rdeg.z T ++
    SetShaderColor self RGBA.r RGBA.g RGBA.b RGBA.a ++ [.draw .plane]

/-- The helper `DrawBoxTex` of `RenderScene` (lines 439-448); the source's default
arguments `uv = (1,1)` and `a = 1` are passed explicitly by the callers here. -/
def RenderScene.DrawBoxTex (fm : FloatMath) (self : SceneManager) (S Rdeg T : Vec3)
    (tag : String) (uv : Vec2) (a : ℚ) : List BackendOp :=
  SetTransformations fm self S Rdeg.x Rdeg.y Rdeg.z T ++
    SetTextureUVScale self uv.x uv.y ++
    SetShaderColor self 1 1 1 a ++
    SetShaderTexture self tag ++
    [.draw .box] ++
    SetTextureUVScale self 1 1

/-- The helper `DrawPlaneTex` of `RenderScene` (lines 450-459); default arguments as for
`DrawBoxTex`. -/
def RenderScene.DrawPlaneTex (fm : FloatMath) (self : SceneManager) (S Rdeg T : Vec3)
    (tag : String) (uv : Vec2) (a : ℚ) : List BackendOp :=
  SetTransformations fm self S Rdeg.x Rdeg.y Rdeg.z T ++
    SetTextureUVScale self uv.x uv.y ++
    SetShaderColor self 1 1 1 a ++
    SetShaderTexture self tag ++
    [.draw .plane] ++
    SetTextureUVScale self 1 1

/-- The global scale `SALL` of `RenderScene` (line 470). -/
def RenderScene.SALL : ℚ := 13 / 10

/-- The offset `pairX` of `RenderScene` (line 471). -/
def RenderScene.pairX : ℚ := 38 / 100

/-- The size `panelS` of a monitor panel (line 506). -/
def RenderScene.panelS : Vec3 := (⟨53 / 100, 33 / 100, 2 / 100⟩ : Vec3).smul RenderScene.SALL

/-- The size `standFootS` of a stand foot (line 508). -/
def RenderScene.standFootS : Vec3 :=
  (⟨20 / 100, 2 / 100, 12 / 100⟩ : Vec3).smul RenderScene.SALL

/-- The helper `StandStack` of `RenderScene` (lines 512-539): foot, post, bezel, screen
and the gloss overlay drawn with depth writes switched off. -/
def RenderScene.StandStack (fm : FloatMath) (self : SceneManager) (baseX baseTopY : ℚ) :
    List BackendOp :=
  let BLACK : Vec4 := ⟨5 / 100, 5 / 100, 6 / 100, 1⟩
  let SALL := RenderScene.SALL
  let panelS := RenderScene.panelS
  let panelHalfH := panelS.y * (1 / 2)
  let standFootS := RenderScene.standFootS
  let postH := SALL * (3 / 100)
  let postR := SALL * (20 / 1000)
  let supportTopY := baseTopY + standFootS.y + postH
  let panelPos : Vec3 := ⟨baseX, supportTopY + panelHalfH, -(5 / 100)⟩
  RenderScene.DrawBoxTex fm self standFootS ⟨0, 0, 0⟩
      ⟨baseX, baseTopY + standFootS.y * (1 / 2), -(5 / 100)⟩ "TEX_PLASTIC" ⟨1, 1⟩ 1 ++
    RenderScene.DrawCyl fm self ⟨postR, postH, postR⟩ ⟨0, 0, 0⟩
      ⟨baseX, baseTopY + standFootS.y + postH * 0, -(5 / 100)⟩ BLACK ++
    RenderScene.DrawBoxTex fm self panelS ⟨0, 0, 0⟩ panelPos "TEX_BEZEL" ⟨1, 1⟩ 1 ++
    RenderScene.DrawBoxTex fm self
      ((⟨495 / 1000, 315 / 1000, 8 / 10000⟩ : Vec3).smul SALL) ⟨0, 0, 0⟩
      (panelPos.add ⟨0, 0, 118 / 10000⟩) "TEX_SCREEN" ⟨1, 1⟩ 1 ++
    [.depthMask false] ++
    RenderScene.DrawBoxTex fm self
      ((⟨495 / 1000, 315 / 1000, 6 / 10000⟩ : Vec3).smul SALL) ⟨0, 0, 0⟩
      (panelPos.add ⟨0, 0, 130 / 10000⟩) "TEX_GLOSS" ⟨1, 1⟩ (35 / 100) ++
    [.depthMask true]

/-- The method `SceneManager::RenderScene` (lines 426-554): the backend operations of
one scene draw, in order. -/
def RenderScene (fm : FloatMath) (self : SceneManager) : List BackendOp :=
  let BLACK : Vec4 := ⟨5 / 100, 5 / 100, 6 / 100, 1⟩
  let WHITE : Vec4 := ⟨92 / 100, 92 / 100, 94 / 100, 1⟩
  let GREEN : Vec4 := ⟨10 / 100, 90 / 100, 20 / 100, 1⟩
  let SALL := RenderScene.SALL
  let pairX := RenderScene.pairX
  let deskS : Vec3 := ⟨160 / 100, 3 / 100, 60 / 100⟩
  let deskHalfH := deskS.y * (1 / 2)
  let deskTopY := deskHalfH
  let shelfS : Vec3 := ⟨150 / 100, 5 / 100, 45 / 100⟩
  let shelfHalfH := shelfS.y * (1 / 2)
  let shelfTopY := 32 / 100 + shelfHalfH
  let xbox1S : Vec3 := (⟨33 / 100, 8 / 100, 27 / 100⟩ : Vec3).smul SALL
  let xbox3S : Vec3 := (⟨31 / 100, 8 / 100, 26 / 100⟩ : Vec3).smul SALL
  let xbox1TopY := shelfTopY + xbox1S.y
  let xbox3TopY := shelfTopY + xbox3S.y
  RenderScene.DrawBoxTex fm self ⟨4, 22 / 10, 3 / 100⟩ ⟨0, 0, 0⟩ ⟨0, 11 / 10, -(80 / 100)⟩
      "TEX_WALL" ⟨3, 15 / 10⟩ 1 ++
    RenderScene.DrawPlaneTex fm self ⟨8, 1, 8⟩ ⟨0, 0, 0⟩ ⟨0, -(2 / 1000), 0⟩
      "TEX_CARPET" ⟨6, 6⟩ 1 ++
    RenderScene.DrawBoxTex fm self deskS ⟨0, 0, 0⟩ ⟨0, 0, 0⟩ "TEX_WOOD" ⟨4, 15 / 10⟩ 1 ++
    RenderScene.DrawBoxTex fm self shelfS ⟨0, 0, 0⟩ ⟨0, 32 / 100, -(5 / 100)⟩
      "TEX_WOOD" ⟨3, 1⟩ 1 ++
    RenderScene.DrawBoxTex fm self xbox1S ⟨0, 0, 0⟩
      ⟨-pairX, shelfTopY + xbox1S.y * (1 / 2), -(8 / 100)⟩ "TEX_PLASTIC" ⟨1, 1⟩ 1 ++
    RenderScene.DrawBox fm self xbox3S ⟨0, 0, 0⟩
      ⟨pairX, shelfTopY + xbox3S.y * (1 / 2), -(8 / 100)⟩ WHITE ++
    RenderScene.DrawCyl fm self ((⟨13 / 1000, 5 / 1000, 13 / 1000⟩ : Vec3).smul SALL)
      ⟨90, 0, 0⟩ ⟨pairX + 12 / 100, shelfTopY + xbox3S.y * (1 / 2), 2 / 100⟩ GREEN ++
    RenderScene.DrawSphere fm self ((⟨12 / 1000, 12 / 1000, 12 / 1000⟩ : Vec3).smul SALL)
      ⟨0, 0, 0⟩ ⟨pairX + 12 / 100, shelfTopY + xbox3S.y * (1 / 2), 27 / 1000⟩ WHITE ++
    RenderScene.StandStack fm self (-pairX) xbox1TopY ++
    RenderScene.StandStack fm self pairX xbox3TopY ++
    RenderScene.DrawBoxTex fm self ((⟨33 / 100, 1 / 100, 27 / 100⟩ : Vec3).smul SALL)
      ⟨0, 0, 0⟩ ⟨55 / 100, deskTopY + SALL * (1 / 100) * (1 / 2), 5 / 100⟩
      "TEX_FABRIC" ⟨25 / 10, 2⟩ 1 ++
    RenderScene.DrawBoxTex fm self ((⟨47 / 100, 25 / 1000, 15 / 100⟩ : Vec3).smul SALL)
      ⟨-3, 10, 0⟩ ⟨-(10 / 100), deskTopY + SALL * (25 / 1000) * (1 / 2), 6 / 100⟩
      "TEX_PLASTIC" ⟨1, 1⟩ 1 ++
    RenderScene.DrawBox fm self ((⟨6 / 100, 7 / 1000, 9 / 100⟩ : Vec3).smul SALL)
      ⟨0, -20, 0⟩ ⟨60 / 100, deskTopY + SALL * (7 / 1000) * (1 / 2), 5 / 100⟩ BLACK ++
    RenderScene.DrawSphere fm self ((⟨5 / 100, 25 / 1000, 75 / 1000⟩ : Vec3).smul SALL)
      ⟨0, -20, 0⟩
      ⟨60 / 100, deskTopY + SALL * (7 / 1000) + SALL * (25 / 1000) * (1 / 2) + 4 / 1000,
        5 / 100⟩ BLACK

/-- The value of the "UVscale" uniform after further backend operations, `current`
being its value before them (`none`: never written). -/
def uvScaleFrom (current : Option (ℚ × ℚ)) (ops : List BackendOp) : Option (ℚ × ℚ) :=
  ops.foldl (fun acc op =>
    match op with
    | .uniform name (.vec2 u v) => if name = "UVscale" then some (u, v) else acc
    | _ => acc) current

/-- The value of the "UVscale" uniform after a sequence of backend operations on a
shader whose uniform was never written before. -/
def uvScaleAfter (ops : List BackendOp) : Option (ℚ × ℚ) := uvScaleFrom none ops

/-- A scene manager with a shader manager attached and the sample texture registry. -/
def sampleScene : SceneManager := ⟨true, sampleRegistry⟩

/-- A scene manager constructed with a null shader manager. -/
def nullScene : SceneManager := ⟨false, sampleRegistry⟩

/-! ## Theorems: view controller -/

theorem togglePerspective_fst (pDown : Bool) (s : ViewState) (cam : Camera) :
    (togglePerspective pDown s cam).1 =
      { s with
        bOrthographicProjection := if pDown && !s.gWasPDown then false else s.bOrthographicProjection
        gSavedCamValid := if pDown && !s.gWasPDown then false else s.gSavedCamValid
        gWasPDown := pDown } := by
  cases pDown <;> cases h1 : s.gWasPDown <;> cases h2 : s.gSavedCamValid <;>
    simp [togglePerspective, h1, h2]

theorem togglePerspective_snd (pDown : Bool) (s : ViewState) (cam : Camera) :
    (togglePerspective pDown s cam).2 =
      if (pDown && !s.gWasPDown) && s.gSavedCamValid then
        { cam with Position := s.gSavedPos, Front := s.gSavedFront, Up := s.gSavedUp }
      else cam := by
  cases pDown <;> cases h1 : s.gWasPDown <;> cases h2 : s.gSavedCamValid <;>
    simp [togglePerspective, h1, h2]

theorem toggleOrthographic_fst (oDown : Bool) (s : ViewState) (cam : Camera) :
    (toggleOrthographic oDown s cam).1 =
      { s with
        bOrthographicProjection := if oDown && !s.gWasODown then true else s.bOrthographicProjection
        gSavedCamValid :=
          if (oDown && !s.gWasODown) && !s.bOrthographicProjection then true else s.gSavedCamValid
        gSavedPos :=
          if (oDown && !s.gWasODown) && !s.bOrthographicProjection then cam.Position else s.gSavedPos
        gSavedFront :=
          if (oDown && !s.gWasODown) && !s.bOrthographicProjection then cam.Front else s.gSavedFront
        gSavedUp :=
          if (oDown && !s.gWasODown) && !s.bOrthographicProjection then cam.Up else s.gSavedUp
        gWasODown := oDown } := by
  cases oDown <;> cases h1 : s.gWasODown <;> cases h2 : s.bOrthographicProjection <;>
    simp [toggleOrthographic, h1, h2]

theorem toggleOrthographic_snd (oDown : Bool) (s : ViewState) (cam : Camera) :
    (toggleOrthographic oDown s cam).2 =
      if oDown && !s.gWasODown then
        { cam with Position := ⟨0, 0, 3⟩, Front := ⟨0, 0, -1⟩, Up := ⟨0, 1, 0⟩ }
      else cam := by
  cases oDown <;> cases h1 : s.gWasODown <;> simp [toggleOrthographic, h1]

theorem PrepareSceneView_none (kbd : KeyboardHandler) (s : ViewState) (i : FrameInput)
    (hc : s.g_pCamera = none) :
    PrepareSceneView kbd s i =
      { s with
        gDeltaTime := i.currentFrame - s.gLastFrame
        gLastFrame := i.currentFrame
        windowShouldClose := if i.keys.KEY_ESCAPE then true else s.windowShouldClose } := by
  unfold PrepareSceneView ProcessKeyboardEvents
  cases hE : i.keys.KEY_ESCAPE <;> simp [hc]

theorem PrepareSceneView_some (kbd : KeyboardHandler) (s : ViewState) (i : FrameInput)
    (cam : Camera) (hc : s.g_pCamera = some cam) :
    PrepareSceneView kbd s i =
      (let pEdge := i.keys.KEY_P && !s.gWasPDown
       let oEdge := i.keys.KEY_O && !s.gWasODown
       let m := movedCamera kbd s i cam
       let camP := if pEdge && s.gSavedCamValid then
           { m with Position := s.gSavedPos, Front := s.gSavedFront, Up := s.gSavedUp } else m
       let orthoP := if pEdge then false else s.bOrthographicProjection
       let validP := if pEdge then false else s.gSavedCamValid
       { s with
         g_pCamera := some (if oEdge then
           { camP with Position := ⟨0, 0, 3⟩, Front := ⟨0, 0, -1⟩, Up := ⟨0, 1, 0⟩ } else camP)
         gDeltaTime := i.currentFrame - s.gLastFrame
         gLastFrame := i.currentFrame
         bOrthographicProjection := if oEdge then true else orthoP
         gWasPDown := i.keys.KEY_P
         gWasODown := i.keys.KEY_O
         gSavedCamValid := if oEdge && !orthoP then true else validP
         gSavedPos := if oEdge && !orthoP then camP.Position else s.gSavedPos
         gSavedFront := if oEdge && !orthoP then camP.Front else s.gSavedFront
         gSavedUp := if oEdge && !orthoP then camP.Up else s.gSavedUp
         windowShouldClose := if i.keys.KEY_ESCAPE then true else s.windowShouldClose }) := by
  unfold PrepareSceneView ProcessKeyboardEvents
  cases hE : i.keys.KEY_ESCAPE <;>
    simp [hc, togglePerspective_fst, togglePerspective_snd, toggleOrthographic_fst,
      toggleOrthographic_snd, movedCamera]

theorem PrepareSceneView_mode_inv (kbd : KeyboardHandler) (s : ViewState) (i : FrameInput)
    (h : s.gSavedCamValid = s.bOrthographicProjection) :
    (PrepareSceneView kbd s i).gSavedCamValid = (PrepareSceneView kbd s i).bOrthographicProjection := by
  cases hc : s.g_pCamera with
  | none => rw [PrepareSceneView_none kbd s i hc]; exact h
  | some cam =>
    rw [PrepareSceneView_some kbd s i cam hc]
    cases hP : i.keys.KEY_P <;> cases hO : i.keys.KEY_O <;>
      cases hwp : s.gWasPDown <;> cases hwo : s.gWasODown <;>
      cases hb : s.bOrthographicProjection <;> simp_all

theorem Mouse_Position_Callback_mode (look : MouseHandler) (s : ViewState) (x y : ℚ) :
    (Mouse_Position_Callback look s x y).gSavedCamValid = s.gSavedCamValid ∧
    (Mouse_Position_Callback look s x y).bOrthographicProjection = s.bOrthographicProjection := by
  unfold Mouse_Position_Callback
  cases hc : s.g_pCamera <;> cases hf : s.gFirstMouse <;> simp [hc]

theorem run_mode_inv (kbd : KeyboardHandler) (look : MouseHandler) (es : List InputEvent) :
    ∀ s : ViewState, s.gSavedCamValid = s.bOrthographicProjection →
      (run kbd look s es).gSavedCamValid = (run kbd look s es).bOrthographicProjection := by
  induction es with
  | nil => intro s h; simpa [run] using h
  | cons e es ih =>
    intro s h
    have hstep : (dispatch kbd look s e).gSavedCamValid =
        (dispatch kbd look s e).bOrthographicProjection := by
      cases e with
      | frame i => exact PrepareSceneView_mode_inv kbd s i h
      | cursor x y =>
        have := Mouse_Position_Callback_mode look s x y
        simp [dispatch, this.1, this.2, h]
    simpa [run] using ih _ hstep

/-- C3: in every state reached from a starting state in Perspective mode with no saved
pose and both edge flags false, by any sequence of frames with arbitrary key states
(cursor events may be interleaved), a saved pose exists exactly when the projection
mode is Orthographic. -/
theorem saved_pose_iff_orthographic (kbd : KeyboardHandler) (look : MouseHandler)
    (s0 : ViewState) (es : List InputEvent) (h0 : InitialMode s0) :
    (run kbd look s0 es).gSavedCamValid = true ↔
      (run kbd look s0 es).bOrthographicProjection = true := by
  have h := run_mode_inv kbd look es s0 (by rw [h0.1, h0.2.1])
  rw [h]

/-- Witness for C3: the constructor's state, an O tap together with P (both rising in
the same frame), a cursor event and a P tap. -/
theorem saved_pose_iff_orthographic_witness :
    InitialMode (ViewManager.ctor Camera.default) ∧
    ((run Camera.ProcessKeyboard (fun c _ _ => c) (ViewManager.ctor Camera.default)
        [.frame ⟨1, keysOf false true true⟩, .cursor 3 4, .frame ⟨2, keysOf false false false⟩,
         .frame ⟨3, keysOf false true false⟩]).gSavedCamValid = true ↔
     (run Camera.ProcessKeyboard (fun c _ _ => c) (ViewManager.ctor Camera.default)
        [.frame ⟨1, keysOf false true true⟩, .cursor 3 4, .frame ⟨2, keysOf false false false⟩,
         .frame ⟨3, keysOf false true false⟩]).bOrthographicProjection = true) :=
  ⟨by simp [InitialMode, ViewManager.ctor],
   saved_pose_iff_orthographic _ _ _ _ (by simp [InitialMode, ViewManager.ctor])⟩

theorem applyMovement_still (kbd : KeyboardHandler) (k : KeyState) (d : ℚ) (cam : Camera)
    (h : k.moves = false) : applyMovement kbd k d cam = cam := by
  simp only [KeyState.moves, Bool.or_eq_false_iff] at h
  obtain ⟨⟨⟨⟨⟨hW, hS⟩, hA⟩, hD⟩, hQ⟩, hE⟩ := h
  simp [applyMovement, hW, hS, hA, hD, hQ, hE]

/-- C1 (amended): from any state in Perspective mode with no saved pose and camera pose
(Position, Front, Up), a frame with a rising edge of O and no movement key held, then a
frame with O and P released, then a frame with a rising edge of P in which O is not
pressed, ends in Perspective mode with Position, Front and Up equal to their values
before the O frame. -/
theorem toggle_round_trip (kbd : KeyboardHandler) (s : ViewState) (cam : Camera)
    (f1 f2 f3 : FrameInput)
    (hcam : s.g_pCamera = some cam)
    (hmode : s.bOrthographicProjection = false) (hsaved : s.gSavedCamValid = false)
    (hwasO : s.gWasODown = false) (hO1 : f1.keys.KEY_O = true) (hstill : f1.keys.moves = false)
    (hO2 : f2.keys.KEY_O = false) (hP2 : f2.keys.KEY_P = false)
    (hP3 : f3.keys.KEY_P = true) (hO3 : f3.keys.KEY_O = false) :
    (runFrames kbd s [f1, f2, f3]).bOrthographicProjection = false ∧
      HasPose (runFrames kbd s [f1, f2, f3]) cam.Position cam.Front cam.Up := by
  simp only [runFrames, List.foldl]
  rw [PrepareSceneView_some kbd s f1 cam hcam, PrepareSceneView_some kbd _ f2 _ rfl,
    PrepareSceneView_some kbd _ f3 _ rfl]
  simp [HasPose, hmode, hsaved, hwasO, hO1, hO2, hP2, hP3, hO3, movedCamera,
    applyMovement_still kbd _ _ cam hstill]

/-- Witness for C1 (amended): the constructor's state, an O tap, a frame with W held and both
toggle keys released, a P tap. -/
theorem toggle_round_trip_witness :
    startState.bOrthographicProjection = false ∧ startState.gSavedCamValid = false ∧
    (runFrames Camera.ProcessKeyboard startState
        [frameAt 1 false false true, frameAt 2 true false false,
         frameAt 3 false true false]).bOrthographicProjection = false ∧
    HasPose (runFrames Camera.ProcessKeyboard startState
        [frameAt 1 false false true, frameAt 2 true false false, frameAt 3 false true false])
      startCamera.Position startCamera.Front startCamera.Up :=
  ⟨rfl, rfl,
   toggle_round_trip Camera.ProcessKeyboard startState startCamera
     (frameAt 1 false false true) (frameAt 2 true false false) (frameAt 3 false true false)
     rfl rfl rfl rfl rfl rfl rfl rfl rfl rfl⟩

/-- C1 (counterexample): from the constructor's state an O tap, a frame with O and P
released, then a frame in which P and O both rise.  The P branch restores the saved pose
and the O branch, which runs after it, snapshots again and re-enters Orthographic mode:
the sequence ends in Orthographic mode with the inspection pose, not the starting pose. -/
theorem round_trip_breaks_when_O_rises_with_P :
    startState.bOrthographicProjection = false ∧ startState.gSavedCamValid = false ∧
    HasPose startState ⟨0, 1 / 2, 2⟩ ⟨0, -(15 / 100), -1⟩ ⟨0, 1, 0⟩ ∧
    (runFrames Camera.ProcessKeyboard startState
      [frameAt 1 false false true, frameAt 2 false false false]).gWasPDown = false ∧
    (frameAt 3 false true true).keys.KEY_P = true ∧
    (runFrames Camera.ProcessKeyboard startState
      [frameAt 1 false false true, frameAt 2 false false false,
       frameAt 3 false true true]).bOrthographicProjection = true ∧
    InspectionPose (runFrames Camera.ProcessKeyboard startState
      [frameAt 1 false false true, frameAt 2 false false false, frameAt 3 false true true]) ∧
    ¬ HasPose (runFrames Camera.ProcessKeyboard startState
      [frameAt 1 false false true, frameAt 2 false false false, frameAt 3 false true true])
      ⟨0, 1 / 2, 2⟩ ⟨0, -(15 / 100), -1⟩ ⟨0, 1, 0⟩ := by
  have hcam : (runFrames Camera.ProcessKeyboard startState
      [frameAt 1 false false true, frameAt 2 false false false,
       frameAt 3 false true true]).g_pCamera =
      some { startCamera with Position := ⟨0, 0, 3⟩, Front := ⟨0, 0, -1⟩, Up := ⟨0, 1, 0⟩ } := by
    simp only [runFrames, List.foldl]
    rw [PrepareSceneView_some _ startState _ startCamera rfl, PrepareSceneView_some _ _ _ _ rfl,
      PrepareSceneView_some _ _ _ _ rfl]
    simp [startState, ViewManager.ctor, frameAt, keysOf, KeyState.none, movedCamera,
      applyMovement, startCamera, Camera.default, togglePerspective_fst, togglePerspective_snd,
      toggleOrthographic_fst, toggleOrthographic_snd]
  refine ⟨rfl, rfl, ⟨startCamera, rfl, rfl, rfl, rfl⟩, by decide, rfl, by decide,
    ⟨_, hcam, rfl, rfl, rfl⟩, ?_⟩
  rintro ⟨cam, hc, hp, -, -⟩
  rw [hcam] at hc
  simp only [Option.some.injEq] at hc
  rw [← hc] at hp
  have hz := congrArg Vec3.z hp
  norm_num at hz

theorem held_frame_keeps_saved (kbd : KeyboardHandler) (s : ViewState) (i : FrameInput)
    (hwasO : s.gWasODown = true) (hO : i.keys.KEY_O = true) (hP : i.keys.KEY_P = false) :
    (PrepareSceneView kbd s i).gWasODown = true ∧
    (PrepareSceneView kbd s i).gSavedCamValid = s.gSavedCamValid ∧
    (PrepareSceneView kbd s i).gSavedPos = s.gSavedPos ∧
    (PrepareSceneView kbd s i).gSavedFront = s.gSavedFront ∧
    (PrepareSceneView kbd s i).gSavedUp = s.gSavedUp := by
  cases hc : s.g_pCamera with
  | none => rw [PrepareSceneView_none kbd s i hc]; simp [hwasO]
  | some cam => rw [PrepareSceneView_some kbd s i cam hc]; simp [hwasO, hO, hP]

theorem held_frames_keep_saved (kbd : KeyboardHandler) (fs : List FrameInput) :
    ∀ s : ViewState, s.gWasODown = true →
      (∀ g ∈ fs, g.keys.KEY_O = true ∧ g.keys.KEY_P = false) →
      (runFrames kbd s fs).gSavedCamValid = s.gSavedCamValid ∧
      (runFrames kbd s fs).gSavedPos = s.gSavedPos ∧
      (runFrames kbd s fs).gSavedFront = s.gSavedFront ∧
      (runFrames kbd s fs).gSavedUp = s.gSavedUp := by
  induction fs with
  | nil => intro s _ _; simp [runFrames]
  | cons f fs ih =>
    intro s hwasO hheld
    have hf := hheld f (List.mem_cons_self f fs)
    obtain ⟨h1, h2, h3, h4, h5⟩ := held_frame_keeps_saved kbd s f hwasO hf.1 hf.2
    have := ih (PrepareSceneView kbd s f) h1 (fun g hg => hheld g (List.mem_cons_of_mem f hg))
    simp only [runFrames, List.foldl] at this ⊢
    rw [this.1, this.2.1, this.2.2.1, this.2.2.2, h2, h3, h4, h5]
    exact ⟨rfl, rfl, rfl, rfl⟩

/-- C2 (amended): starting in Perspective mode with O not down in the previous frame and
camera `cam`, after any n >= 1 consecutive frames with O pressed and P not pressed the
saved pose is valid and is the pose the camera had when the first frame's toggle ran,
that is `cam` moved by the movement keys of that first frame; it is the pose of `cam`
itself when the first frame holds no movement key. Later frames never overwrite it. -/
theorem held_O_snapshot_once (kbd : KeyboardHandler) (s : ViewState) (cam : Camera)
    (f : FrameInput) (fs : List FrameInput)
    (hcam : s.g_pCamera = some cam)
    (hmode : s.bOrthographicProjection = false) (hwasO : s.gWasODown = false)
    (hheld : ∀ g ∈ f :: fs, g.keys.KEY_O = true ∧ g.keys.KEY_P = false) :
    (runFrames kbd s (f :: fs)).gSavedCamValid = true ∧
    SavedPose (runFrames kbd s (f :: fs)) (movedCamera kbd s f cam).Position
      (movedCamera kbd s f cam).Front (movedCamera kbd s f cam).Up ∧
    (f.keys.moves = false →
      SavedPose (runFrames kbd s (f :: fs)) cam.Position cam.Front cam.Up) := by
  have hf := hheld f (List.mem_cons_self f fs)
  have e1 := PrepareSceneView_some kbd s f cam hcam
  simp only [hmode, hwasO, hf.1, hf.2] at e1
  have hrest := held_frames_keep_saved kbd fs (PrepareSceneView kbd s f) (by rw [e1])
    (fun g hg => hheld g (List.mem_cons_of_mem f hg))
  have hrun : runFrames kbd s (f :: fs) = runFrames kbd (PrepareSceneView kbd s f) fs := rfl
  rw [hrun]
  refine ⟨by rw [hrest.1, e1]; simp, ?_, ?_⟩
  · unfold SavedPose
    rw [hrest.2.1, hrest.2.2.1, hrest.2.2.2, e1]
    simp
  · intro hstill
    unfold SavedPose
    rw [hrest.2.1, hrest.2.2.1, hrest.2.2.2, e1]
    simp [movedCamera, applyMovement_still kbd _ _ cam hstill]

/-- Witness for C2 (amended): O held for three frames from the constructor's state, W
also held in the second and third. -/
theorem held_O_snapshot_once_witness :
    startState.bOrthographicProjection = false ∧ startState.gWasODown = false ∧
    (frameAt 1 false false true).keys.moves = false ∧
    (runFrames Camera.ProcessKeyboard startState
      [frameAt 1 false false true, frameAt 2 true false true,
       frameAt 3 true false true]).gSavedCamValid = true ∧
    SavedPose (runFrames Camera.ProcessKeyboard startState
      [frameAt 1 false false true, frameAt 2 true false true, frameAt 3 true false true])
      startCamera.Position startCamera.Front startCamera.Up :=
  have h := held_O_snapshot_once Camera.ProcessKeyboard startState startCamera
    (frameAt 1 false false true) [frameAt 2 true false true, frameAt 3 true false true]
    rfl rfl rfl (by simp [frameAt, keysOf, KeyState.none])
  ⟨rfl, rfl, rfl, h.1, h.2.2 rfl⟩

/-- C2 (counterexample): from the constructor's state (Perspective, pose
(0,0.5,2), (0,-0.15,-1), (0,1,0)) one frame at time 1 with O pressed, P not pressed and
W held saves the position (0,0.35,1), the pose after that frame's movement, not the
starting pose. -/
theorem held_O_snapshot_after_movement :
    startState.bOrthographicProjection = false ∧ startState.gWasODown = false ∧
    HasPose startState ⟨0, 1 / 2, 2⟩ ⟨0, -(15 / 100), -1⟩ ⟨0, 1, 0⟩ ∧
    (frameAt 1 true false true).keys.KEY_O = true ∧
    (frameAt 1 true false true).keys.KEY_P = false ∧
    (runFrames Camera.ProcessKeyboard startState [frameAt 1 true false true]).gSavedPos =
      ⟨0, 7 / 20, 1⟩ ∧
    ¬ SavedPose (runFrames Camera.ProcessKeyboard startState [frameAt 1 true false true])
      ⟨0, 1 / 2, 2⟩ ⟨0, -(15 / 100), -1⟩ ⟨0, 1, 0⟩ := by
  have hpos : (runFrames Camera.ProcessKeyboard startState
      [frameAt 1 true false true]).gSavedPos = ⟨0, 7 / 20, 1⟩ := by
    simp only [runFrames, List.foldl]
    rw [PrepareSceneView_some _ startState _ startCamera rfl]
    simp [startState, ViewManager.ctor, frameAt, keysOf, KeyState.none, movedCamera,
      applyMovement, Camera.ProcessKeyboard, startCamera, Camera.default, Vec3.add, Vec3.smul]
    norm_num
  refine ⟨rfl, rfl, ⟨startCamera, rfl, rfl, rfl, rfl⟩, rfl, rfl, hpos, ?_⟩
  intro h
  have hx := h.1
  rw [hpos] at hx
  have hz := congrArg Vec3.z hx
  norm_num at hz

/-- C4 (counterexample): from the constructor's state an O tap at time 1 enters
Orthographic mode; the next frame, at time 2 with W held and O still down, moves the
camera to (0,0,2) while the mode stays Orthographic, so the pose is no longer the
inspection pose. -/
theorem orthographic_pose_moves_with_W :
    (runFrames Camera.ProcessKeyboard startState
      [frameAt 1 false false true, frameAt 2 true false true]).bOrthographicProjection = true ∧
    HasPose (runFrames Camera.ProcessKeyboard startState
      [frameAt 1 false false true, frameAt 2 true false true])
      ⟨0, 0, 2⟩ ⟨0, 0, -1⟩ ⟨0, 1, 0⟩ ∧
    ¬ InspectionPose (runFrames Camera.ProcessKeyboard startState
      [frameAt 1 false false true, frameAt 2 true false true]) := by
  have hrun : runFrames Camera.ProcessKeyboard startState
      [frameAt 1 false false true, frameAt 2 true false true] =
      { startState with
        g_pCamera := some { startCamera with
          Position := ⟨0, 0, 2⟩, Front := ⟨0, 0, -1⟩, Up := ⟨0, 1, 0⟩ }
        gDeltaTime := 1
        gLastFrame := 2
        bOrthographicProjection := true
        gWasODown := true
        gSavedCamValid := true
        gSavedPos := ⟨0, 1 / 2, 2⟩
        gSavedFront := ⟨0, -(15 / 100), -1⟩
        gSavedUp := ⟨0, 1, 0⟩ } := by
    simp only [runFrames, List.foldl]
    rw [PrepareSceneView_some _ startState _ startCamera rfl, PrepareSceneView_some _ _ _ _ rfl]
    simp [startState, ViewManager.ctor, frameAt, keysOf, KeyState.none, movedCamera,
      applyMovement, Camera.ProcessKeyboard, startCamera, Camera.default, Vec3.add, Vec3.smul]
    norm_num
  rw [hrun]
  refine ⟨rfl, ⟨_, rfl, rfl, rfl, rfl⟩, ?_⟩
  rintro ⟨cam, hc, hp, -, -⟩
  simp only [Option.some.injEq] at hc
  rw [← hc] at hp
  have hz := congrArg Vec3.z hp
  norm_num at hz

theorem dispatch_keeps_inspection (kbd : KeyboardHandler) (look : MouseHandler)
    (s : ViewState) (e : InputEvent)
    (hinv : s.bOrthographicProjection = true → InspectionPose s) (hq : Undisturbed s e) :
    (dispatch kbd look s e).bOrthographicProjection = true →
      InspectionPose (dispatch kbd look s e) := by
  cases e with
  | cursor x y =>
    have hm := (Mouse_Position_Callback_mode look s x y).2
    have hq2 : s.bOrthographicProjection = false := hq
    intro h
    simp only [dispatch] at h
    rw [hm, hq2] at h
    exact absurd h (by simp)
  | frame i =>
    simp only [dispatch]
    cases hc : s.g_pCamera with
    | none =>
      rw [PrepareSceneView_none kbd s i hc]
      intro h
      obtain ⟨cam, hcam, -⟩ := hinv h
      rw [hc] at hcam
      exact absurd hcam (by simp)
    | some cam =>
      rw [PrepareSceneView_some kbd s i cam hc]
      have hq2 : s.bOrthographicProjection = true → i.keys.moves = true →
        (i.keys.KEY_O && !s.gWasODown) = true ∨ (i.keys.KEY_P && !s.gWasPDown) = true := hq
      cases hO : (i.keys.KEY_O && !s.gWasODown) with
      | true => intro _; simp [InspectionPose, HasPose]
      | false =>
        cases hP : (i.keys.KEY_P && !s.gWasPDown) with
        | true => simp
        | false =>
          intro h
          simp only [Bool.false_eq_true, if_false] at h
          have hb : s.bOrthographicProjection = true := by simpa using h
          obtain ⟨cam1, hcam1, hpos, hfront, hup⟩ := hinv hb
          rw [hc] at hcam1
          simp only [Option.some.injEq] at hcam1
          subst hcam1
          have hstill : i.keys.moves = false := by
            cases hm : i.keys.moves with
            | false => rfl
            | true =>
              rcases hq2 hb hm with h1 | h1
              · rw [hO] at h1; exact absurd h1 (by simp)
              · rw [hP] at h1; exact absurd h1 (by simp)
          simp [InspectionPose, HasPose, movedCamera, applyMovement_still kbd _ _ cam hstill,
            hpos, hfront, hup]

/-- C4 (amended): in every state reached from a state in Perspective mode by a sequence
of frames and cursor events in which, while the mode is Orthographic, no cursor event
arrives and movement keys are held only in frames that have a rising edge of O or P,
whenever the projection mode is Orthographic the camera pose is the inspection pose
Position=(0,0,3), Front=(0,0,-1), Up=(0,1,0). -/
theorem orthographic_pose_when_undisturbed (kbd : KeyboardHandler) (look : MouseHandler)
    (es : List InputEvent) (s0 : ViewState)
    (h0 : s0.bOrthographicProjection = false) (hq : UndisturbedTrace kbd look s0 es) :
    (run kbd look s0 es).bOrthographicProjection = true →
      InspectionPose (run kbd look s0 es) := by
  have key : ∀ (es : List InputEvent) (s : ViewState),
      (s.bOrthographicProjection = true → InspectionPose s) → UndisturbedTrace kbd look s es →
      (run kbd look s es).bOrthographicProjection = true → InspectionPose (run kbd look s es) := by
    intro es
    induction es with
    | nil => intro s hinv _; simpa [run] using hinv
    | cons e es ih =>
      intro s hinv htrace
      exact ih (dispatch kbd look s e) (dispatch_keeps_inspection kbd look s e hinv htrace.1)
        htrace.2
  exact key es s0 (fun h => absurd h (by simp [h0])) hq

/-- Witness for C4 (amended): from the constructor's state a cursor event, an O tap with
W held, then O held with no movement key. -/
theorem orthographic_pose_when_undisturbed_witness :
    startState.bOrthographicProjection = false ∧
    InspectionPose (run Camera.ProcessKeyboard (fun c _ _ => c) startState
      [.cursor 10 20, .frame (frameAt 1 true false true), .frame (frameAt 2 false false true)]) :=
  ⟨rfl,
   orthographic_pose_when_undisturbed Camera.ProcessKeyboard (fun c _ _ => c)
     [.cursor 10 20, .frame (frameAt 1 true false true), .frame (frameAt 2 false false true)]
     startState rfl
     (by
       refine ⟨rfl, ?_, ?_, trivial⟩
       · intro h; exact absurd h (by decide)
       · intro _ h; exact absurd h (by decide))
     (by decide)⟩

/-! ## Theorems: texture and material registries -/

theorem tagAt_lt (reg : TextureRegistry) (i : Nat) (t : String)
    (h : reg.tagAt i = some t) : i < reg.m_loadedTextures := by
  unfold TextureRegistry.tagAt at h
  by_contra hlt
  simp [hlt] at h

theorem tagAt_get (reg : TextureRegistry) (i : Nat)
    (h : i < reg.m_loadedTextures) :
    reg.tagAt i = some (reg.m_textureIDs.get ⟨i, lt_of_lt_of_le h reg.inBounds⟩).tag := by
  have hlen : i < reg.m_textureIDs.length := lt_of_lt_of_le h reg.inBounds
  simp [TextureRegistry.tagAt, h, List.getElem?_eq_getElem hlen]

theorem FindTextureSlot_loop_found (reg : TextureRegistry) (tag : String) (slot : Int)
    (index : Nat) : FindTextureSlot.loop reg tag slot index true = slot := by
  rw [FindTextureSlot.loop]
  simp

theorem FindTextureSlot_loop_miss (reg : TextureRegistry) (tag : String) (slot : Int) :
    ∀ (d index : Nat), reg.m_loadedTextures - index = d →
      (∀ m, index ≤ m → m < reg.m_loadedTextures → reg.tagAt m ≠ some tag) →
      FindTextureSlot.loop reg tag slot index false = slot := by
  intro d
  induction d with
  | zero =>
    intro index hd _
    rw [FindTextureSlot.loop]
    have hge : ¬ index < reg.m_loadedTextures := by omega
    simp [hge]
  | succ d ih =>
    intro index hd H
    have hlt : index < reg.m_loadedTextures := by omega
    have hne : (reg.m_textureIDs.get ⟨index, lt_of_lt_of_le hlt reg.inBounds⟩).tag ≠ tag := by
      have h1 := H index le_rfl hlt
      rw [tagAt_get reg index hlt] at h1
      simpa using h1
    rw [FindTextureSlot.loop]
    simp only [hlt, and_self, dif_pos, if_neg hne]
    exact ih (index + 1) (by omega) (fun m hm hml => H m (by omega) hml)

theorem FindTextureSlot_loop_hit (reg : TextureRegistry) (tag : String) (slot : Int) (k : Nat)
    (hk : reg.tagAt k = some tag) :
    ∀ (d index : Nat), k - index = d → index ≤ k →
      (∀ m, index ≤ m → m < k → reg.tagAt m ≠ some tag) →
      FindTextureSlot.loop reg tag slot index false = (k : Int) := by
  have hkl : k < reg.m_loadedTextures := tagAt_lt reg k tag hk
  intro d
  induction d with
  | zero =>
    intro index hd hle _
    have hik : index = k := by omega
    subst hik
    have heq : (reg.m_textureIDs.get ⟨index, lt_of_lt_of_le hkl reg.inBounds⟩).tag = tag := by
      rw [tagAt_get reg index hkl] at hk
      simpa using hk
    rw [FindTextureSlot.loop]
    simp only [hkl, and_self, dif_pos, if_pos heq]
    exact FindTextureSlot_loop_found reg tag _ index
  | succ d ih =>
    intro index hd hle H
    have hlt : index < reg.m_loadedTextures := by omega
    have hne : (reg.m_textureIDs.get ⟨index, lt_of_lt_of_le hlt reg.inBounds⟩).tag ≠ tag := by
      have h1 := H index le_rfl (by omega)
      rw [tagAt_get reg index hlt] at h1
      simpa using h1
    rw [FindTextureSlot.loop]
    simp only [hlt, and_self, dif_pos, if_neg hne]
    exact ih (index + 1) (by omega) (by omega) (fun m hm hmk => H m (by omega) hmk)

theorem FindTextureSlot_of_not_registered (reg : TextureRegistry) (tag : String)
    (h : ¬ reg.Registered tag) : FindTextureSlot reg tag = -1 := by
  unfold FindTextureSlot
  exact FindTextureSlot_loop_miss reg tag (-1) _ 0 rfl (fun m _ _ hm => h ⟨m, hm⟩)

theorem FindTextureSlot_of_registered (reg : TextureRegistry) (tag : String) (i : Nat)
    (h : reg.tagAt i = some tag) :
    ∃ k : Nat, FindTextureSlot reg tag = (k : Int) ∧ k ≤ i ∧ reg.tagAt k = some tag ∧
      ∀ m, m < k → reg.tagAt m ≠ some tag := by
  have hex : ∃ m, reg.tagAt m = some tag := ⟨i, h⟩
  refine ⟨Nat.find hex, ?_, Nat.find_min' hex h, Nat.find_spec hex, fun m hm => Nat.find_min hex hm⟩
  unfold FindTextureSlot
  exact FindTextureSlot_loop_hit reg tag (-1) _ (Nat.find_spec hex) _ 0 rfl (Nat.zero_le _)
    (fun m _ hm => Nat.find_min hex hm)

/-- C7: `FindTextureSlot` returns -1 exactly when no registered slot (index below the
loaded count) carries the tag; in particular it returns -1 for every tag on a registry
with nothing loaded. -/
theorem FindTextureSlot_eq_neg_one_iff (reg : TextureRegistry) (tag : String) :
    (FindTextureSlot reg tag = -1 ↔ ¬ reg.Registered tag) ∧
    (∀ slots : List TEXTURE_INFO, FindTextureSlot (TextureRegistry.ctor slots) tag = -1) := by
  refine ⟨⟨fun h hreg => ?_, FindTextureSlot_of_not_registered reg tag⟩, fun slots => ?_⟩
  · obtain ⟨i, hi⟩ := hreg
    obtain ⟨k, hk, -⟩ := FindTextureSlot_of_registered reg tag i hi
    rw [hk] at h
    omega
  · apply FindTextureSlot_of_not_registered
    rintro ⟨i, hi⟩
    have := tagAt_lt _ i tag hi
    simp [TextureRegistry.ctor] at this

theorem CreateGLTexture_ok (stbi_load : String → Option ImageData) (textureID : Nat)
    (reg : TextureRegistry) (filename tag : String) (img : ImageData)
    (hd : stbi_load filename = some img)
    (h : reg.m_loadedTextures < reg.m_textureIDs.length) :
    ∃ reg1, CreateGLTexture stbi_load textureID reg filename tag = some (true, reg1) ∧
      reg1.m_loadedTextures = reg.m_loadedTextures + 1 ∧
      reg1.m_textureIDs = reg.m_textureIDs.set reg.m_loadedTextures ⟨textureID, tag⟩ := by
  unfold CreateGLTexture
  simp only [hd, h, dif_pos]
  refine ⟨_, rfl, rfl, ?_⟩
  simp [List.set_set]

theorem CreateGLTexture_true_inv (stbi_load : String → Option ImageData) (textureID : Nat)
    (reg reg1 : TextureRegistry) (filename tag : String)
    (h : CreateGLTexture stbi_load textureID reg filename tag = some (true, reg1)) :
    reg.m_loadedTextures < reg.m_textureIDs.length ∧
      reg1.m_loadedTextures = reg.m_loadedTextures + 1 ∧
      reg1.m_textureIDs = reg.m_textureIDs.set reg.m_loadedTextures ⟨textureID, tag⟩ := by
  cases hd : stbi_load filename with
  | none => simp [CreateGLTexture, hd] at h
  | some img =>
    by_cases hlt : reg.m_loadedTextures < reg.m_textureIDs.length
    · obtain ⟨r, hr, h1, h2⟩ := CreateGLTexture_ok stbi_load textureID reg filename tag img hd hlt
      rw [hr] at h
      simp only [Option.some.injEq, Prod.mk.injEq, true_and] at h
      subst h
      exact ⟨hlt, h1, h2⟩
    · simp [CreateGLTexture, hd, hlt] at h

theorem CreateGLTexture_false_inv (stbi_load : String → Option ImageData) (textureID : Nat)
    (reg reg1 : TextureRegistry) (filename tag : String)
    (h : CreateGLTexture stbi_load textureID reg filename tag = some (false, reg1)) :
    reg1 = reg := by
  cases hd : stbi_load filename with
  | none =>
    simp only [CreateGLTexture, hd, Option.some.injEq, Prod.mk.injEq, true_and] at h
    exact h.symm
  | some img =>
    by_cases hlt : reg.m_loadedTextures < reg.m_textureIDs.length
    · obtain ⟨r, hr, -⟩ := CreateGLTexture_ok stbi_load textureID reg filename tag img hd hlt
      rw [hr] at h
      simp at h
    · simp [CreateGLTexture, hd, hlt] at h

/-- Slots below the old count keep tag and handle, the new slot carries the given tag
and handle, when the array is updated at the old count and the count grows by one. -/
theorem appended_slots (reg reg1 : TextureRegistry) (textureID : Nat) (tag : String)
    (hlt : reg.m_loadedTextures < reg.m_textureIDs.length)
    (hn : reg1.m_loadedTextures = reg.m_loadedTextures + 1)
    (hids : reg1.m_textureIDs = reg.m_textureIDs.set reg.m_loadedTextures ⟨textureID, tag⟩) :
    (∀ i, i < reg.m_loadedTextures → reg1.tagAt i = reg.tagAt i ∧ reg1.idAt i = reg.idAt i) ∧
    reg1.tagAt reg.m_loadedTextures = some tag ∧
    reg1.idAt reg.m_loadedTextures = some textureID := by
  refine ⟨fun i hi => ?_, ?_, ?_⟩
  · have hne : reg.m_loadedTextures ≠ i := by omega
    have hi1 : i < reg.m_loadedTextures + 1 := by omega
    simp [TextureRegistry.tagAt, TextureRegistry.idAt, hn, hids, hi, hi1,
      List.getElem?_set_ne hne]
  · simp [TextureRegistry.tagAt, hn, hids, List.getElem?_set_self hlt]
  · simp [TextureRegistry.idAt, hn, hids, List.getElem?_set_self hlt]

/-- C5: in every texture registry in which a tag occurs in a registered slot (in
particular in more than one), `FindTextureSlot` returns the smallest slot index whose
tag equals it; and after two successful loads of the same previously unregistered tag
`FindTextureSlot` is the index the first load assigned, the old loaded count. -/
theorem FindTextureSlot_first_wins :
    (∀ (reg : TextureRegistry) (tag : String) (i j : Nat), i < j →
      reg.tagAt i = some tag → reg.tagAt j = some tag →
      ∃ k : Nat, FindTextureSlot reg tag = (k : Int) ∧ k ≤ i ∧ reg.tagAt k = some tag ∧
        ∀ m, m < k → reg.tagAt m ≠ some tag) ∧
    (∀ (stbi_load : String → Option ImageData) (id1 id2 : Nat) (reg reg1 reg2 : TextureRegistry)
      (file1 file2 tag : String), ¬ reg.Registered tag →
      CreateGLTexture stbi_load id1 reg file1 tag = some (true, reg1) →
      CreateGLTexture stbi_load id2 reg1 file2 tag = some (true, reg2) →
      reg1.tagAt reg.m_loadedTextures = some tag ∧
      reg2.tagAt (reg.m_loadedTextures + 1) = some tag ∧
      FindTextureSlot reg2 tag = (reg.m_loadedTextures : Int)) := by
  refine ⟨fun reg tag i j _ hi _ => FindTextureSlot_of_registered reg tag i hi, ?_⟩
  intro stbi_load id1 id2 reg reg1 reg2 file1 file2 tag hnew h1 h2
  obtain ⟨hlt1, hn1, hids1⟩ := CreateGLTexture_true_inv _ _ _ _ _ _ h1
  obtain ⟨hlt2, hn2, hids2⟩ := CreateGLTexture_true_inv _ _ _ _ _ _ h2
  obtain ⟨-, ht1, -⟩ := appended_slots reg reg1 id1 tag hlt1 hn1 hids1
  obtain ⟨hold2, ht2, -⟩ := appended_slots reg1 reg2 id2 tag hlt2 hn2 hids2
  obtain ⟨hold1, -, -⟩ := appended_slots reg reg1 id1 tag hlt1 hn1 hids1
  rw [hn1] at ht2
  have hfirst : reg2.tagAt reg.m_loadedTextures = some tag := by
    rw [(hold2 reg.m_loadedTextures (by omega)).1]; exact ht1
  refine ⟨ht1, ht2, ?_⟩
  obtain ⟨k, hk, hle, hkt, -⟩ := FindTextureSlot_of_registered reg2 tag _ hfirst
  rw [hk]
  have hkn : k = reg.m_loadedTextures := by
    by_contra hne
    have hklt : k < reg.m_loadedTextures := by omega
    apply hnew
    refine ⟨k, ?_⟩
    rw [← (hold1 k hklt).1, ← (hold2 k (by omega)).1]
    exact hkt
  rw [hkn]

/-- Witness for C5: the wood tag sits in slots 0 and 2 of the sample registry; and two
loads of one new tag into the empty registry. -/
theorem FindTextureSlot_first_wins_witness :
    (sampleRegistry.tagAt 0 = some "TEX_WOOD" ∧ sampleRegistry.tagAt 2 = some "TEX_WOOD" ∧
      ∃ k : Nat, FindTextureSlot sampleRegistry "TEX_WOOD" = (k : Int) ∧ k ≤ 0 ∧
        sampleRegistry.tagAt k = some "TEX_WOOD" ∧
        ∀ m, m < k → sampleRegistry.tagAt m ≠ some "TEX_WOOD") ∧
    (∃ reg1 reg2 : TextureRegistry,
      CreateGLTexture decodeAll 5 emptyRegistry "a.jpg" "TEX_A" = some (true, reg1) ∧
      CreateGLTexture decodeAll 6 reg1 "b.jpg" "TEX_A" = some (true, reg2) ∧
      reg1.tagAt emptyRegistry.m_loadedTextures = some "TEX_A" ∧
      reg2.tagAt (emptyRegistry.m_loadedTextures + 1) = some "TEX_A" ∧
      FindTextureSlot reg2 "TEX_A" = (emptyRegistry.m_loadedTextures : Int)) := by
  refine ⟨⟨by decide, by decide,
    FindTextureSlot_first_wins.1 sampleRegistry "TEX_WOOD" 0 2 (by decide) (by decide)
      (by decide)⟩, ?_⟩
  obtain ⟨reg1, h1, hn1, hids1⟩ := CreateGLTexture_ok decodeAll 5 emptyRegistry "a.jpg" "TEX_A"
    ⟨64, 64⟩ rfl (by decide)
  obtain ⟨reg2, h2, -, -⟩ := CreateGLTexture_ok decodeAll 6 reg1 "b.jpg" "TEX_A"
    ⟨64, 64⟩ rfl (by rw [hn1, hids1]; simp [emptyRegistry, TextureRegistry.ctor, kTextureSlots])
  have hnew : ¬ emptyRegistry.Registered "TEX_A" := by
    rintro ⟨i, hi⟩
    have := tagAt_lt _ i _ hi
    simp [emptyRegistry, TextureRegistry.ctor] at this
  exact ⟨reg1, reg2, h1, h2,
    FindTextureSlot_first_wins.2 decodeAll 5 6 emptyRegistry reg1 reg2 "a.jpg" "b.jpg" "TEX_A"
      hnew h1 h2⟩

theorem Registered_of_create (stbi_load : String → Option ImageData)
    (textureID : Nat) (reg reg1 : TextureRegistry) (filename tag : String) (ok : Bool)
    (h : CreateGLTexture stbi_load textureID reg filename tag = some (ok, reg1)) :
    (ok = true → reg1.Registered tag) ∧ (∀ t, reg.Registered t → reg1.Registered t) := by
  cases ok with
  | false =>
    have := CreateGLTexture_false_inv _ _ _ _ _ _ h
    subst this
    exact ⟨fun h => absurd h (by simp), fun _ ht => ht⟩
  | true =>
    obtain ⟨hlt, hn, hids⟩ := CreateGLTexture_true_inv _ _ _ _ _ _ h
    obtain ⟨hold, hnew, -⟩ := appended_slots reg reg1 textureID tag hlt hn hids
    refine ⟨fun _ => ⟨_, hnew⟩, ?_⟩
    rintro t ⟨i, hi⟩
    exact ⟨i, by rw [(hold i (tagAt_lt reg i t hi)).1]; exact hi⟩

theorem loadTextures_registered (stbi_load : String → Option ImageData)
    (reqs : List LoadRequest) :
    ∀ (reg0 reg : TextureRegistry) (loaded : List String),
      loadTextures stbi_load reg0 reqs = some (reg, loaded) →
      (∀ t, reg0.Registered t → reg.Registered t) ∧ (∀ t, t ∈ loaded → reg.Registered t) := by
  induction reqs with
  | nil =>
    intro reg0 reg loaded h
    simp only [loadTextures, Option.some.injEq, Prod.mk.injEq] at h
    obtain ⟨h1, h2⟩ := h
    subst h1 h2
    exact ⟨fun _ ht => ht, fun t ht => absurd ht (by simp)⟩
  | cons r rs ih =>
    intro reg0 reg loaded h
    unfold loadTextures at h
    cases hc : CreateGLTexture stbi_load r.textureID reg0 r.filename r.tag with
    | none => simp [hc] at h
    | some p =>
      obtain ⟨ok, reg1⟩ := p
      cases hr : loadTextures stbi_load reg1 rs with
      | none => simp [hc, hr] at h
      | some q =>
        obtain ⟨reg2, tags⟩ := q
        simp only [hc, hr, Option.some.injEq, Prod.mk.injEq] at h
        obtain ⟨h1, h2⟩ := h
        subst h1
        obtain ⟨hkeep, htags⟩ := ih reg1 reg2 tags hr
        obtain ⟨hnew, hold⟩ := Registered_of_create _ _ _ _ _ _ _ hc
        refine ⟨fun t ht => hkeep t (hold t ht), fun t ht => ?_⟩
        cases ok with
        | false =>
          simp only [Bool.false_eq_true, if_false] at h2
          exact htags t (h2 ▸ ht)
        | true =>
          simp only [if_true] at h2
          rw [← h2] at ht
          rcases List.mem_cons.mp ht with hrt | hrt
          · rw [hrt]; exact hkeep _ (hnew rfl)
          · exact htags t hrt

/-- C6: in every texture registry built from any registry by a sequence of
`CreateGLTexture` calls, any two different tags that were each registered by a call
that returned `true` are found by `FindTextureSlot` (the result is not -1 and lies
below the loaded count) at different slot indices. -/
theorem FindTextureSlot_distinct_tags (stbi_load : String → Option ImageData)
    (reg0 reg : TextureRegistry) (reqs : List LoadRequest) (loaded : List String)
    (t1 t2 : String)
    (hrun : loadTextures stbi_load reg0 reqs = some (reg, loaded))
    (h1 : t1 ∈ loaded) (h2 : t2 ∈ loaded) (hne : t1 ≠ t2) :
    FindTextureSlot reg t1 ≠ -1 ∧ FindTextureSlot reg t2 ≠ -1 ∧
      FindTextureSlot reg t1 ≠ FindTextureSlot reg t2 ∧
      (0 ≤ FindTextureSlot reg t1 ∧ FindTextureSlot reg t1 < reg.m_loadedTextures) ∧
      (0 ≤ FindTextureSlot reg t2 ∧ FindTextureSlot reg t2 < reg.m_loadedTextures) := by
  obtain ⟨-, hreg⟩ := loadTextures_registered stbi_load reqs reg0 reg loaded hrun
  obtain ⟨i1, hi1⟩ := hreg t1 h1
  obtain ⟨i2, hi2⟩ := hreg t2 h2
  obtain ⟨k1, hk1, -, hkt1, -⟩ := FindTextureSlot_of_registered reg t1 i1 hi1
  obtain ⟨k2, hk2, -, hkt2, -⟩ := FindTextureSlot_of_registered reg t2 i2 hi2
  have hl1 := tagAt_lt reg k1 t1 hkt1
  have hl2 := tagAt_lt reg k2 t2 hkt2
  rw [hk1, hk2]
  refine ⟨by omega, by omega, fun h => hne ?_, by omega, by omega⟩
  have hk : k1 = k2 := by exact_mod_cast h
  rw [hk, hkt2] at hkt1
  simpa using hkt1.symm

/-- Witness for C6: wood and wall are loaded into the empty registry, with a failed
load in between. -/
theorem FindTextureSlot_distinct_tags_witness :
    ∃ (reg : TextureRegistry) (loaded : List String),
      loadTextures decodeKnown emptyRegistry sampleLoads = some (reg, loaded) ∧
      "TEX_WOOD" ∈ loaded ∧ "TEX_WALL" ∈ loaded ∧
      FindTextureSlot reg "TEX_WOOD" ≠ -1 ∧ FindTextureSlot reg "TEX_WALL" ≠ -1 ∧
      FindTextureSlot reg "TEX_WOOD" ≠ FindTextureSlot reg "TEX_WALL" := by
  obtain ⟨reg1, h1, hn1, hids1⟩ := CreateGLTexture_ok decodeKnown 1 emptyRegistry
    "wood_oak.jpg" "TEX_WOOD" ⟨64, 64⟩ (by decide) (by decide)
  have h2 : CreateGLTexture decodeKnown 2 reg1 "missing.png" "TEX_GLOSS" = some (false, reg1) := by
    simp [CreateGLTexture, decodeKnown]
  obtain ⟨reg3, h3, -, -⟩ := CreateGLTexture_ok decodeKnown 3 reg1
    "paint_wall.jpg" "TEX_WALL" ⟨64, 64⟩ (by decide)
    (by rw [hn1, hids1]; simp [emptyRegistry, TextureRegistry.ctor, kTextureSlots])
  have hrun : loadTextures decodeKnown emptyRegistry sampleLoads =
      some (reg3, ["TEX_WOOD", "TEX_WALL"]) := by
    simp [loadTextures, sampleLoads, h1, h2, h3]
  obtain ⟨r1, r2, r3, -⟩ := FindTextureSlot_distinct_tags decodeKnown emptyRegistry reg3
    sampleLoads _ "TEX_WOOD" "TEX_WALL" hrun (by decide) (by decide) (by decide)
  exact ⟨reg3, _, hrun, by decide, by decide, r1, r2, r3⟩

/-- C9: a `CreateGLTexture` call whose image decoding fails returns `false` and leaves
the registry unchanged: same loaded count, same tag and handle in every registered slot,
same `FindTextureSlot` answer for every tag. -/
theorem CreateGLTexture_decode_failure (stbi_load : String → Option ImageData)
    (textureID : Nat) (reg : TextureRegistry) (filename tag : String)
    (hfail : stbi_load filename = none) :
    ∃ reg1, CreateGLTexture stbi_load textureID reg filename tag = some (false, reg1) ∧
      reg1 = reg ∧ reg1.m_loadedTextures = reg.m_loadedTextures ∧
      (∀ i, reg1.tagAt i = reg.tagAt i ∧ reg1.idAt i = reg.idAt i) ∧
      ∀ t, FindTextureSlot reg1 t = FindTextureSlot reg t := by
  refine ⟨reg, ?_, rfl, rfl, fun _ => ⟨rfl, rfl⟩, fun _ => rfl⟩
  simp [CreateGLTexture, hfail]

/-- Witness for C9: a failing load into the sample registry. -/
theorem CreateGLTexture_decode_failure_witness :
    decodeKnown "missing.png" = none ∧
    ∃ reg1, CreateGLTexture decodeKnown 4 sampleRegistry "missing.png" "TEX_GLOSS" =
        some (false, reg1) ∧
      reg1 = sampleRegistry ∧ reg1.m_loadedTextures = sampleRegistry.m_loadedTextures ∧
      (∀ i, reg1.tagAt i = sampleRegistry.tagAt i ∧ reg1.idAt i = sampleRegistry.idAt i) ∧
      ∀ t, FindTextureSlot reg1 t = FindTextureSlot sampleRegistry t :=
  ⟨by decide,
   CreateGLTexture_decode_failure decodeKnown 4 sampleRegistry "missing.png" "TEX_GLOSS"
     (by decide)⟩

/-- C10 (counterexample): with all sixteen slots of the array registered, a call whose
decode succeeds writes `m_textureIDs[16]`, outside the array: the call has no defined
result, so it neither returns `true` nor leaves a registry of seventeen slots. -/
theorem CreateGLTexture_full_registry :
    fullRegistry.m_loadedTextures = 16 ∧ fullRegistry.m_textureIDs.length = 16 ∧
    decodeAll "wood_oak.jpg" = some ⟨64, 64⟩ ∧
    CreateGLTexture decodeAll 17 fullRegistry "wood_oak.jpg" "TEX_WOOD" = none ∧
    ¬ ∃ reg1, CreateGLTexture decodeAll 17 fullRegistry "wood_oak.jpg" "TEX_WOOD" =
        some (true, reg1) := by
  have h : CreateGLTexture decodeAll 17 fullRegistry "wood_oak.jpg" "TEX_WOOD" = none := by
    simp [CreateGLTexture, decodeAll, fullRegistry, kTextureSlots]
  refine ⟨rfl, by simp [fullRegistry, kTextureSlots], rfl, h, ?_⟩
  rintro ⟨reg1, h1⟩
  rw [h] at h1
  exact absurd h1 (by simp)

/-- C10 (amended): for every texture registry holding n slots with n below the capacity
of the array, a `CreateGLTexture` call whose decode succeeds returns `true`; the
registry then holds n+1 slots, slots 0..n-1 keep tag and handle, and slot n carries the
given tag and the new handle; hence `FindTextureSlot` of the tag is n when the tag was
not registered before. -/
theorem CreateGLTexture_appends (stbi_load : String → Option ImageData) (textureID : Nat)
    (reg : TextureRegistry) (filename tag : String) (img : ImageData)
    (hdecode : stbi_load filename = some img)
    (hroom : reg.m_loadedTextures < reg.m_textureIDs.length) :
    ∃ reg1, CreateGLTexture stbi_load textureID reg filename tag = some (true, reg1) ∧
      reg1.m_loadedTextures = reg.m_loadedTextures + 1 ∧
      (∀ i, i < reg.m_loadedTextures →
        reg1.tagAt i = reg.tagAt i ∧ reg1.idAt i = reg.idAt i) ∧
      reg1.tagAt reg.m_loadedTextures = some tag ∧
      reg1.idAt reg.m_loadedTextures = some textureID ∧
      (¬ reg.Registered tag → FindTextureSlot reg1 tag = (reg.m_loadedTextures : Int)) := by
  obtain ⟨reg1, h1, hn, hids⟩ :=
    CreateGLTexture_ok stbi_load textureID reg filename tag img hdecode hroom
  obtain ⟨hold, htag, hid⟩ := appended_slots reg reg1 textureID tag hroom hn hids
  refine ⟨reg1, h1, hn, hold, htag, hid, fun hnew => ?_⟩
  obtain ⟨k, hk, hle, hkt, -⟩ := FindTextureSlot_of_registered reg1 tag _ htag
  rw [hk]
  have hkn : k = reg.m_loadedTextures := by
    by_contra hne
    have hklt : k < reg.m_loadedTextures := by omega
    exact hnew ⟨k, by rw [← (hold k hklt).1]; exact hkt⟩
  rw [hkn]

/-- Witness for C10 (amended): loading the plastic texture into the sample registry,
which holds three slots of sixteen. -/
theorem CreateGLTexture_appends_witness :
    decodeAll "black_plastic.jpg" = some ⟨64, 64⟩ ∧
    sampleRegistry.m_loadedTextures < sampleRegistry.m_textureIDs.length ∧
    ¬ sampleRegistry.Registered "TEX_PLASTIC" ∧
    ∃ reg1, CreateGLTexture decodeAll 11 sampleRegistry "black_plastic.jpg" "TEX_PLASTIC" =
        some (true, reg1) ∧
      reg1.m_loadedTextures = 4 ∧ reg1.tagAt 3 = some "TEX_PLASTIC" ∧
      reg1.idAt 3 = some 11 ∧ FindTextureSlot reg1 "TEX_PLASTIC" = 3 := by
  have hnew : ¬ sampleRegistry.Registered "TEX_PLASTIC" := by
    rintro ⟨i, hi⟩
    have hlt : i < 3 := tagAt_lt _ i _ hi
    interval_cases i <;> exact absurd hi (by decide)
  obtain ⟨reg1, h1, hn, -, htag, hid, hfind⟩ :=
    CreateGLTexture_appends decodeAll 11 sampleRegistry "black_plastic.jpg" "TEX_PLASTIC"
      ⟨64, 64⟩ rfl (by decide)
  exact ⟨rfl, by decide, hnew, reg1, h1, hn, htag, hid, hfind hnew⟩

theorem FindMaterial_loop_found (mats : List OBJECT_MATERIAL) (tag : String)
    (material : OBJECT_MATERIAL) (index : Nat) :
    FindMaterial.loop mats tag material index true = (material, index, true) := by
  rw [FindMaterial.loop]
  simp

theorem FindMaterial_loop_miss (mats : List OBJECT_MATERIAL) (tag : String)
    (material : OBJECT_MATERIAL) (hmiss : ∀ m ∈ mats, m.tag ≠ tag) :
    ∀ (d index : Nat), mats.length - index = d →
      (FindMaterial.loop mats tag material index false).1 = material := by
  intro d
  induction d with
  | zero =>
    intro index hd
    rw [FindMaterial.loop]
    have hge : ¬ index < mats.length := by omega
    simp [hge]
  | succ d ih =>
    intro index hd
    have hlt : index < mats.length := by omega
    have hne : (mats.get ⟨index, hlt⟩).tag ≠ tag := hmiss _ (List.get_mem mats index hlt)
    rw [FindMaterial.loop]
    simp only [hlt, and_self, dif_pos, if_neg hne]
    exact ih (index + 1) (by omega)

/-- On a non-empty material list with no entry of the given tag, `FindMaterial` still
returns `true` and hands back the out-parameter untouched, and `SetShaderMaterial`
writes all five material uniforms from it. -/
theorem SetShaderMaterial_miss (mats : List OBJECT_MATERIAL) (tag : String)
    (material : OBJECT_MATERIAL) (hne : mats ≠ []) (hmiss : ∀ m ∈ mats, m.tag ≠ tag) :
    FindMaterial mats tag material = (true, material) ∧
    SetShaderMaterial mats tag material =
      [("material.ambientColor", .vec3 material.ambientColor),
       ("material.ambientStrength", .float material.ambientStrength),
       ("material.diffuseColor", .vec3 material.diffuseColor),
       ("material.specularColor", .vec3 material.specularColor),
       ("material.shininess", .float material.shininess)] := by
  have hlen : mats.length ≠ 0 := fun h => hne (List.length_eq_zero.mp h)
  have hfind : FindMaterial mats tag material = (true, material) := by
    unfold FindMaterial
    simp only [hlen, if_false]
    rw [FindMaterial_loop_miss mats tag material hmiss _ 0 rfl]
  refine ⟨hfind, ?_⟩
  unfold SetShaderMaterial
  have hpos : mats.length > 0 := Nat.pos_of_ne_zero hlen
  simp [hpos, hfind]

/-- C8 (code at the failing input): with one material tagged "wood" registered, no entry
matches "glass", yet `FindMaterial` returns `true` and `SetShaderMaterial` writes all
five material uniforms with the content of its uninitialised local; only on the empty
list does it write nothing. -/
theorem SetShaderMaterial_unknown_tag_writes :
    (∀ m ∈ sampleMaterials, m.tag ≠ "glass") ∧
    FindMaterial sampleMaterials "glass" staleMaterial = (true, staleMaterial) ∧
    SetShaderMaterial sampleMaterials "glass" staleMaterial =
      [("material.ambientColor", .vec3 ⟨9, 9, 9⟩), ("material.ambientStrength", .float 9),
       ("material.diffuseColor", .vec3 ⟨9, 9, 9⟩), ("material.specularColor", .vec3 ⟨9, 9, 9⟩),
       ("material.shininess", .float 9)] ∧
    (SetShaderMaterial sampleMaterials "glass" staleMaterial).map Prod.fst = materialUniforms ∧
    SetShaderMaterial [] "glass" staleMaterial = [] := by
  have hmiss : ∀ m ∈ sampleMaterials, m.tag ≠ "glass" := by
    intro m hm
    simp only [sampleMaterials, List.mem_singleton] at hm
    subst hm
    decide
  obtain ⟨h1, h2⟩ := SetShaderMaterial_miss sampleMaterials "glass" staleMaterial
    (by simp [sampleMaterials]) hmiss
  refine ⟨hmiss, h1, h2, ?_, by simp [SetShaderMaterial]⟩
  rw [h2]
  rfl

/-! ## Theorems: scroll and cursor callbacks -/

theorem Mouse_Scroll_Callback_speed (s : ViewState) (xoffset yoffset : ℚ) :
    (Mouse_Scroll_Callback s xoffset yoffset).gMoveSpeed =
      (if (if s.gMoveSpeed + yoffset * (1 / 2) < kMinSpeed then kMinSpeed
            else s.gMoveSpeed + yoffset * (1 / 2)) > kMaxSpeed then kMaxSpeed
       else (if s.gMoveSpeed + yoffset * (1 / 2) < kMinSpeed then kMinSpeed
            else s.gMoveSpeed + yoffset * (1 / 2))) := by
  unfold Mouse_Scroll_Callback
  cases hc : s.g_pCamera <;> simp [hc]

theorem Mouse_Scroll_Callback_up (s : ViewState) (xoffset : ℚ) (hlo : 1 / 2 ≤ s.gMoveSpeed) :
    (Mouse_Scroll_Callback s xoffset 1).gMoveSpeed = min (s.gMoveSpeed + 1 / 2) 15 := by
  rw [Mouse_Scroll_Callback_speed]
  have h1 : ¬ s.gMoveSpeed + 1 * (1 / 2) < kMinSpeed := by
    unfold kMinSpeed
    linarith
  rw [if_neg h1]
  unfold kMaxSpeed
  by_cases h2 : s.gMoveSpeed + 1 * (1 / 2) > 15
  · rw [if_pos h2, min_eq_right (by linarith)]
  · rw [if_neg h2, min_eq_left (by linarith)]
    ring

/-- C11: from any movement speed in [0.5, 15], in particular the initial 2.5, the speed
`gMoveSpeed` after N calls of `Mouse_Scroll_Callback` with yoffset = +1 (any xoffset) is
min(initialSpeed + N*0.5, 15) in exact arithmetic. -/
theorem scroll_speed_law (s : ViewState) (offsets : List (ℚ × ℚ))
    (hlo : 1 / 2 ≤ s.gMoveSpeed) (hhi : s.gMoveSpeed ≤ 15)
    (hup : ∀ o ∈ offsets, o.2 = 1) :
    (runScrolls s offsets).gMoveSpeed =
      min (s.gMoveSpeed + (offsets.length : ℚ) * (1 / 2)) 15 := by
  induction offsets generalizing s with
  | nil => simp [runScrolls, min_eq_left hhi]
  | cons o os ih =>
    have ho : o.2 = 1 := hup o (List.mem_cons_self o os)
    have hstep := Mouse_Scroll_Callback_up s o.1 hlo
    have hrun : runScrolls s (o :: os) = runScrolls (Mouse_Scroll_Callback s o.1 1) os := by
      simp [runScrolls, ho]
    rw [hrun, ih (Mouse_Scroll_Callback s o.1 1)
      (by rw [hstep]; exact le_min (by linarith) (by norm_num))
      (by rw [hstep]; exact min_le_right _ _)
      (fun p hp => hup p (List.mem_cons_of_mem o hp)), hstep]
    simp only [List.length_cons, Nat.cast_add, Nat.cast_one]
    rcases le_total (s.gMoveSpeed + 1 / 2) 15 with h | h
    · rw [min_eq_left h]
      congr 1
      ring
    · have hn : (0 : ℚ) ≤ (os.length : ℚ) := Nat.cast_nonneg _
      rw [min_eq_right h, min_eq_right (by linarith), min_eq_right (by linarith)]

/-- Witness for C11: three scroll-up events from the constructor's state take the speed
from 2.5 to 4; thirty take it to the maximum 15. -/
theorem scroll_speed_law_witness :
    startState.gMoveSpeed = 5 / 2 ∧
    (runScrolls startState [(0, 1), (7, 1), (0, 1)]).gMoveSpeed = 4 ∧
    (runScrolls startState (List.replicate 30 (0, 1))).gMoveSpeed = 15 := by
  have h0 : startState.gMoveSpeed = 5 / 2 := rfl
  have h3 := scroll_speed_law startState [(0, 1), (7, 1), (0, 1)]
    (by rw [h0]; norm_num) (by rw [h0]; norm_num) (by simp)
  have h30 := scroll_speed_law startState (List.replicate 30 (0, 1))
    (by rw [h0]; norm_num) (by rw [h0]; norm_num)
    (fun o ho => by rw [(List.mem_replicate.mp ho).2])
  refine ⟨h0, ?_, ?_⟩
  · rw [h3, h0]; norm_num
  · rw [h30, h0]; norm_num

theorem floatExponent_eval (q : ℚ) (e : ℤ) (he : -126 ≤ e) (hlo : (2 : ℚ) ^ e ≤ |q|)
    (hhi : |q| < (2 : ℚ) ^ (e + 1)) : floatExponent q = e := by
  have hpos : (0 : ℚ) < |q| := lt_of_lt_of_le (by positivity) hlo
  have h1 : e ≤ Int.log 2 |q| :=
    (Int.zpow_le_iff_le_log (by norm_num) hpos).mp (by exact_mod_cast hlo)
  have h2 : Int.log 2 |q| < e + 1 :=
    (Int.lt_zpow_iff_log_lt (by norm_num) hpos).mp (by exact_mod_cast hhi)
  unfold floatExponent
  rw [max_eq_left (by omega)]
  omega

theorem roundHalfEven_eval (m : ℚ) (f : ℤ) (h1 : (f : ℚ) ≤ m) (h2 : m < f + 1) :
    roundHalfEven m =
      if m - f < 1 / 2 then f
      else if 1 / 2 < m - f then f + 1
      else if f % 2 = 0 then f else f + 1 := by
  have hf : ⌊m⌋ = f := Int.floor_eq_iff.mpr ⟨h1, h2⟩
  simp only [roundHalfEven, hf]

/-- Evaluation of `roundToFloat` from the binary exponent `e` of `q` and the integer
part `f` of `q` counted in units of the last place. -/
theorem roundToFloat_eval (q : ℚ) (e f : ℤ) (he : -126 ≤ e) (hlo : (2 : ℚ) ^ e ≤ |q|)
    (hhi : |q| < (2 : ℚ) ^ (e + 1)) (h1 : (f : ℚ) ≤ |q| / 2 ^ (e - 23))
    (h2 : |q| / 2 ^ (e - 23) < f + 1) :
    roundToFloat q =
      (if q < 0 then -1 else 1) *
        ((if |q| / 2 ^ (e - 23) - f < 1 / 2 then f
          else if 1 / 2 < |q| / 2 ^ (e - 23) - f then f + 1
          else if f % 2 = 0 then f else f + 1 : ℤ) : ℚ) * 2 ^ (e - 23) := by
  have hq : q ≠ 0 := by
    intro h
    rw [h, abs_zero] at hlo
    exact absurd hlo (not_le.mpr (by positivity))
  simp only [roundToFloat, hq, if_false, floatExponent_eval q e he hlo hhi,
    roundHalfEven_eval _ f h1 h2]

theorem roundToFloat_zero : roundToFloat 0 = 0 := by
  simp [roundToFloat]

theorem Mouse_Position_Callback_eq (look : MouseHandler) (s : ViewState) (x y : ℚ) :
    Mouse_Position_Callback look s x y =
      { s with
        g_pCamera := s.g_pCamera.map (fun c =>
          look c (if s.gFirstMouse then 0 else roundToFloat (roundToFloat x - s.gLastX))
            (if s.gFirstMouse then 0 else roundToFloat (s.gLastY - roundToFloat y)))
        gLastX := roundToFloat x
        gLastY := roundToFloat y
        gFirstMouse := false } := by
  unfold Mouse_Position_Callback
  cases hc : s.g_pCamera <;> cases hf : s.gFirstMouse <;>
    simp [hc, hf, roundToFloat_zero]

theorem PrepareSceneView_mouse (kbd : KeyboardHandler) (s : ViewState) (i : FrameInput) :
    (PrepareSceneView kbd s i).gFirstMouse = s.gFirstMouse ∧
    (PrepareSceneView kbd s i).gLastX = s.gLastX ∧
    (PrepareSceneView kbd s i).gLastY = s.gLastY := by
  cases hc : s.g_pCamera with
  | none => rw [PrepareSceneView_none kbd s i hc]; exact ⟨rfl, rfl, rfl⟩
  | some cam => rw [PrepareSceneView_some kbd s i cam hc]; exact ⟨rfl, rfl, rfl⟩

theorem dispatch_tracks (kbd : KeyboardHandler) (look : MouseHandler) (s : ViewState)
    (previous : Option (ℚ × ℚ)) (e : InputEvent) (h : Tracks s previous) :
    Tracks (dispatch kbd look s e)
      (match e with
        | .cursor x y => some (x, y)
        | .frame _ => previous) := by
  cases e with
  | cursor x y =>
    simp only [dispatch, Tracks]
    rw [Mouse_Position_Callback_eq]
    exact ⟨rfl, rfl, rfl⟩
  | frame i =>
    obtain ⟨h1, h2, h3⟩ := PrepareSceneView_mouse kbd s i
    simp only [dispatch]
    cases previous with
    | none =>
      simp only [Tracks] at h ⊢
      rw [h1]; exact h
    | some p =>
      obtain ⟨px, py⟩ := p
      simp only [Tracks] at h ⊢
      rw [h1, h2, h3]; exact h

theorem run_tracks (kbd : KeyboardHandler) (look : MouseHandler) (es : List InputEvent) :
    ∀ (s : ViewState) (previous : Option (ℚ × ℚ)), Tracks s previous →
      Tracks (run kbd look s es)
        (es.foldl (fun acc e => match e with
          | .cursor x y => some (x, y)
          | .frame _ => acc) previous) := by
  induction es with
  | nil => intro s previous h; simpa [run] using h
  | cons e es ih =>
    intro s previous h
    have hstep := dispatch_tracks kbd look s previous e h
    have := ih _ _ hstep
    simpa [run] using this

/-- The camera after one more cursor event: the look handler applied to the float
deltas against the previous cursor event of the trace. -/
theorem run_cursor_camera (kbd : KeyboardHandler) (look : MouseHandler) (s0 : ViewState)
    (earlier : List InputEvent) (x y : ℚ) (h0 : s0.gFirstMouse = true) :
    (run kbd look s0 (earlier ++ [.cursor x y])).g_pCamera =
      (run kbd look s0 earlier).g_pCamera.map (fun c =>
        look c (floatDelta (lastCursor earlier) x y).1
          (floatDelta (lastCursor earlier) x y).2) := by
  have htr : Tracks (run kbd look s0 earlier) (lastCursor earlier) :=
    run_tracks kbd look earlier s0 none h0
  have hrun : run kbd look s0 (earlier ++ [.cursor x y]) =
      Mouse_Position_Callback look (run kbd look s0 earlier) x y := by
    simp [run, List.foldl_append, dispatch]
  rw [hrun, Mouse_Position_Callback_eq]
  cases hl : lastCursor earlier with
  | none =>
    rw [hl] at htr
    have hf : (run kbd look s0 earlier).gFirstMouse = true := htr
    simp [floatDelta, hf]
  | some p =>
    obtain ⟨px, py⟩ := p
    rw [hl] at htr
    obtain ⟨hf, hx, hy⟩ := htr
    simp [floatDelta, hf, hx, hy]

/-- C14 (counterexample): from the constructor's state, cursor events at x = 0.1 and
then x = 0.3 (y = 0 both times).  The conversions give the floats 13421773/2^27 and
5033165/2^24, whose exact difference lies midway between two floats and rounds to
6710887/2^25 = 0.2000000178...; that is the delta the camera receives, not the 1/5 the
claim states. -/
theorem cursor_delta_rounds_in_float :
    startState.gFirstMouse = true ∧
    expectedDelta (lastCursor [.cursor (1 / 10) 0]) (3 / 10) 0 = (1 / 5, 0) ∧
    (run Camera.ProcessKeyboard recordLook startState
      ([.cursor (1 / 10) 0] ++ [.cursor (3 / 10) 0])).g_pCamera =
      (run Camera.ProcessKeyboard recordLook startState [.cursor (1 / 10) 0]).g_pCamera.map
        (fun c => recordLook c (6710887 / 33554432) 0) ∧
    (run Camera.ProcessKeyboard recordLook startState
      ([.cursor (1 / 10) 0] ++ [.cursor (3 / 10) 0])).g_pCamera ≠
      (run Camera.ProcessKeyboard recordLook startState [.cursor (1 / 10) 0]).g_pCamera.map
        (fun c => recordLook c (1 / 5) 0) := by
  have r1 : roundToFloat (1 / 10) = 13421773 / 134217728 := by
    rw [roundToFloat_eval (1 / 10) (-4) 13421772 (by norm_num) (by norm_num [abs_of_pos])
      (by norm_num [abs_of_pos]) (by norm_num [abs_of_pos]) (by norm_num [abs_of_pos])]
    norm_num [abs_of_pos]
  have r3 : roundToFloat (3 / 10) = 5033165 / 16777216 := by
    rw [roundToFloat_eval (3 / 10) (-2) 10066329 (by norm_num) (by norm_num [abs_of_pos])
      (by norm_num [abs_of_pos]) (by norm_num [abs_of_pos]) (by norm_num [abs_of_pos])]
    norm_num [abs_of_pos]
  have rd : roundToFloat (5033165 / 16777216 - 13421773 / 134217728) =
      6710887 / 33554432 := by
    rw [roundToFloat_eval _ (-3) 13421773 (by norm_num) (by norm_num [abs_of_pos])
      (by norm_num [abs_of_pos]) (by norm_num [abs_of_pos]) (by norm_num [abs_of_pos])]
    norm_num [abs_of_pos]
  have hexp : expectedDelta (lastCursor [.cursor (1 / 10) 0]) (3 / 10) 0 = (1 / 5, 0) := by
    simp [expectedDelta, lastCursor]
    norm_num
  have hdelta : floatDelta (lastCursor [.cursor (1 / 10) 0]) (3 / 10) 0 =
      (6710887 / 33554432, 0) := by
    have hl : lastCursor [.cursor (1 / 10) 0] = some (1 / 10, 0) := rfl
    rw [hl]
    simp only [floatDelta]
    rw [r1, r3, rd, roundToFloat_zero, sub_zero, roundToFloat_zero]
  have hcam := run_cursor_camera Camera.ProcessKeyboard recordLook startState
    [.cursor (1 / 10) 0] (3 / 10) 0 rfl
  rw [hdelta] at hcam
  have hfirst : (run Camera.ProcessKeyboard recordLook startState
      [.cursor (1 / 10) 0]).g_pCamera = some (recordLook startCamera 0 0) := by
    have h := run_cursor_camera Camera.ProcessKeyboard recordLook startState [] (1 / 10) 0 rfl
    simpa [floatDelta, lastCursor, run, startState, ViewManager.ctor, startCamera] using h
  refine ⟨rfl, hexp, hcam, ?_⟩
  rw [hcam, hfirst]
  intro h
  simp only [Option.map_some', Option.some.injEq] at h
  have hx := congrArg (fun c => c.Front.x) h
  simp [recordLook, Vec3.add] at hx
  norm_num at hx

/-- C14 (amended): after startup (`gFirstMouse` still set, whatever `gLastX`, `gLastY`
are), for every trace of cursor events, with frames interleaved at will, each cursor
event at (x, y) hands the camera, when there is one, the look delta (0, 0) if it is the
first cursor event, and otherwise the float differences of the float-converted
positions against the previous cursor event (xPrev, yPrev); these are exactly
(x - xPrev, yPrev - y) whenever the four coordinates and the two differences are
representable as floats. -/
theorem cursor_look_deltas (kbd : KeyboardHandler) (look : MouseHandler) (s0 : ViewState)
    (earlier : List InputEvent) (x y : ℚ) (h0 : s0.gFirstMouse = true) :
    (run kbd look s0 (earlier ++ [.cursor x y])).g_pCamera =
      (run kbd look s0 earlier).g_pCamera.map (fun c =>
        look c (floatDelta (lastCursor earlier) x y).1
          (floatDelta (lastCursor earlier) x y).2) ∧
    (lastCursor earlier = none → floatDelta (lastCursor earlier) x y = (0, 0)) ∧
    (∀ xPrev yPrev : ℚ, lastCursor earlier = some (xPrev, yPrev) →
      floatDelta (lastCursor earlier) x y =
        (roundToFloat (roundToFloat x - roundToFloat xPrev),
         roundToFloat (roundToFloat yPrev - roundToFloat y)) ∧
      (roundToFloat x = x → roundToFloat xPrev = xPrev →
        roundToFloat y = y → roundToFloat yPrev = yPrev →
        roundToFloat (x - xPrev) = x - xPrev → roundToFloat (yPrev - y) = yPrev - y →
        floatDelta (lastCursor earlier) x y = (x - xPrev, yPrev - y))) := by
  refine ⟨run_cursor_camera kbd look s0 earlier x y h0, ?_, ?_⟩
  · intro hl
    rw [hl]
    rfl
  · intro xPrev yPrev hl
    rw [hl]
    refine ⟨rfl, ?_⟩
    intro hx hxp hy hyp hdx hdy
    simp only [floatDelta]
    rw [hx, hxp, hy, hyp, hdx, hdy]

/-- Witness for C14 (amended): from the constructor's state, whose last position is the
window centre (500, 400), the first cursor event at (10, 20) passes (0, 0); after a
frame and a cursor event at (13, 18), the event at (17, 25), all whole pixels, passes
(4, -7). -/
theorem cursor_look_deltas_witness :
    startState.gFirstMouse = true ∧
    (run Camera.ProcessKeyboard recordLook startState ([] ++ [.cursor 10 20])).g_pCamera =
      (run Camera.ProcessKeyboard recordLook startState []).g_pCamera.map (fun c =>
        recordLook c (floatDelta (lastCursor []) 10 20).1 (floatDelta (lastCursor []) 10 20).2) ∧
    floatDelta (lastCursor []) 10 20 = (0, 0) ∧
    lastCursor [.cursor 10 20, .frame (frameAt 1 true false false), .cursor 13 18] =
      some (13, 18) ∧
    floatDelta (lastCursor [.cursor 10 20, .frame (frameAt 1 true false false), .cursor 13 18])
      17 25 = (17 - 13, 18 - 25) := by
  have ev : ∀ (q : ℚ) (e f : ℤ), 0 < q → -126 ≤ e → (2 : ℚ) ^ e ≤ q → q < (2 : ℚ) ^ (e + 1) →
      (f : ℚ) = q / 2 ^ (e - 23) → roundToFloat q = q ∧ roundToFloat (-q) = -q := by
    intro q e f hq he hlo hhi hf
    have hz : (2 : ℚ) ^ (e - 23) ≠ 0 := by positivity
    have hqf : q = (f : ℚ) * 2 ^ (e - 23) := by rw [hf]; field_simp
    constructor
    · rw [roundToFloat_eval q e f he (by rwa [abs_of_pos hq]) (by rwa [abs_of_pos hq])
        (by rw [abs_of_pos hq, hf]) (by rw [abs_of_pos hq, ← hf]; linarith)]
      rw [abs_of_pos hq, ← hf]
      simp [not_lt.mpr hq.le, ← hqf]
    · have hn : -q < 0 := by linarith
      rw [roundToFloat_eval (-q) e f he (by rwa [abs_of_neg hn, neg_neg])
        (by rwa [abs_of_neg hn, neg_neg]) (by rw [abs_of_neg hn, neg_neg, hf])
        (by rw [abs_of_neg hn, neg_neg, ← hf]; linarith)]
      rw [abs_of_neg hn, neg_neg, ← hf]
      simp [hn]
      linarith
  have h17 := (ev 17 4 8912896 (by norm_num) (by norm_num) (by norm_num) (by norm_num)
    (by norm_num)).1
  have h13 := (ev 13 3 13631488 (by norm_num) (by norm_num) (by norm_num) (by norm_num)
    (by norm_num)).1
  have h25 := (ev 25 4 13107200 (by norm_num) (by norm_num) (by norm_num) (by norm_num)
    (by norm_num)).1
  have h18 := (ev 18 4 9437184 (by norm_num) (by norm_num) (by norm_num) (by norm_num)
    (by norm_num)).1
  have h4 := (ev 4 2 8388608 (by norm_num) (by norm_num) (by norm_num) (by norm_num)
    (by norm_num)).1
  have h7 := (ev 7 2 14680064 (by norm_num) (by norm_num) (by norm_num) (by norm_num)
    (by norm_num)).2
  have hl : lastCursor [.cursor 10 20, .frame (frameAt 1 true false false), .cursor 13 18] =
      some (13, 18) := rfl
  have hfirst := cursor_look_deltas Camera.ProcessKeyboard recordLook startState [] 10 20 rfl
  have hlater := cursor_look_deltas Camera.ProcessKeyboard recordLook startState
    [.cursor 10 20, .frame (frameAt 1 true false false), .cursor 13 18] 17 25 rfl
  exact ⟨rfl, hfirst.1, hfirst.2.1 rfl, hl,
    (hlater.2.2 13 18 hl).2 h17 h13 h25 h18 (by norm_num; exact h4)
      (by norm_num; exact h7)⟩

/-! ## Theorems: transform and uniform bridge -/

theorem glm_rotate_zero (fm : FloatMath) (axis : Vec3)
    (hcos : fm.cos 0 = 1) (hsin : fm.sin 0 = 0) :
    glm.rotate fm (glm.radians fm 0) axis = 1 := by
  have hr : glm.radians fm 0 = 0 := by simp [glm.radians]
  rw [hr]
  ext i j
  fin_cases i <;> fin_cases j <;>
    simp [glm.rotate, hcos, hsin, Vec3.smul, glm.normalize, Matrix.one_apply] <;> rfl

theorem glm_scale_one : glm.scale ⟨1, 1, 1⟩ = 1 := by
  ext i j
  fin_cases i <;> fin_cases j <;> simp [glm.scale, Matrix.one_apply] <;> rfl

theorem modelView_unrotated_unscaled (fm : FloatMath) (positionXYZ : Vec3)
    (hcos : fm.cos 0 = 1) (hsin : fm.sin 0 = 0) :
    SetTransformations.modelView fm ⟨1, 1, 1⟩ 0 0 0 positionXYZ = glm.translate positionXYZ := by
  unfold SetTransformations.modelView
  simp only [glm_rotate_zero fm _ hcos hsin, glm_scale_one, mul_one]

/-- C12: with cos 0 = 1 and sin 0 = 0 exactly, the model matrix `SetTransformations`
composes as translation * rotationX * rotationY * rotationZ * scale for scale (1,1,1),
rotation degrees (0,0,0) and translation (0,0,0) is the 4x4 identity matrix, and that is
the matrix written to the "model" uniform. -/
theorem identity_transform (fm : FloatMath) (hcos : fm.cos 0 = 1) (hsin : fm.sin 0 = 0) :
    SetTransformations.modelView fm ⟨1, 1, 1⟩ 0 0 0 ⟨0, 0, 0⟩ = 1 ∧
    ∀ self : SceneManager, SetTransformations fm self ⟨1, 1, 1⟩ 0 0 0 ⟨0, 0, 0⟩ =
      if self.m_pShaderManager then [.uniform "model" (.mat4 1)] else [] := by
  have htr : glm.translate ⟨0, 0, 0⟩ = 1 := by
    ext i j
    fin_cases i <;> fin_cases j <;> simp [glm.translate, Matrix.one_apply] <;> rfl
  have hm : SetTransformations.modelView fm ⟨1, 1, 1⟩ 0 0 0 ⟨0, 0, 0⟩ = 1 := by
    rw [modelView_unrotated_unscaled fm _ hcos hsin, htr]
  refine ⟨hm, fun self => ?_⟩
  unfold SetTransformations
  rw [hm]

/-- Witness for C12: the sample math functions have cos 0 = 1 and sin 0 = 0. -/
theorem identity_transform_witness :
    sampleMath.cos 0 = 1 ∧ sampleMath.sin 0 = 0 ∧
    SetTransformations.modelView sampleMath ⟨1, 1, 1⟩ 0 0 0 ⟨0, 0, 0⟩ = 1 :=
  ⟨by simp [sampleMath], by simp [sampleMath],
   (identity_transform sampleMath (by simp [sampleMath]) (by simp [sampleMath])).1⟩

/-- C13: with cos 0 = 1 and sin 0 = 0 exactly, for every translation vector (x,y,z) the
model matrix `SetTransformations` composes with scale (1,1,1) and rotation degrees
(0,0,0) has fourth column exactly (x,y,z,1); the other three columns are those of the
identity. -/
theorem translation_column (fm : FloatMath) (x y z : ℚ)
    (hcos : fm.cos 0 = 1) (hsin : fm.sin 0 = 0) :
    SetTransformations.modelView fm ⟨1, 1, 1⟩ 0 0 0 ⟨x, y, z⟩ 0 3 = x ∧
    SetTransformations.modelView fm ⟨1, 1, 1⟩ 0 0 0 ⟨x, y, z⟩ 1 3 = y ∧
    SetTransformations.modelView fm ⟨1, 1, 1⟩ 0 0 0 ⟨x, y, z⟩ 2 3 = z ∧
    SetTransformations.modelView fm ⟨1, 1, 1⟩ 0 0 0 ⟨x, y, z⟩ 3 3 = 1 ∧
    ∀ i j : Fin 4, j ≠ 3 →
      SetTransformations.modelView fm ⟨1, 1, 1⟩ 0 0 0 ⟨x, y, z⟩ i j = (1 : Mat4) i j := by
  rw [modelView_unrotated_unscaled fm _ hcos hsin]
  refine ⟨by simp [glm.translate], by simp [glm.translate], by simp [glm.translate],
    by simp [glm.translate], ?_⟩
  intro i j hj
  fin_cases i <;> fin_cases j <;> first
    | exact absurd rfl hj
    | (simp [glm.translate, Matrix.one_apply] <;> rfl)

/-- Witness for C13: the spec's translation (1,2,3). -/
theorem translation_column_witness :
    sampleMath.cos 0 = 1 ∧ sampleMath.sin 0 = 0 ∧
    SetTransformations.modelView sampleMath ⟨1, 1, 1⟩ 0 0 0 ⟨1, 2, 3⟩ 0 3 = 1 ∧
    SetTransformations.modelView sampleMath ⟨1, 1, 1⟩ 0 0 0 ⟨1, 2, 3⟩ 1 3 = 2 ∧
    SetTransformations.modelView sampleMath ⟨1, 1, 1⟩ 0 0 0 ⟨1, 2, 3⟩ 2 3 = 3 ∧
    SetTransformations.modelView sampleMath ⟨1, 1, 1⟩ 0 0 0 ⟨1, 2, 3⟩ 3 3 = 1 :=
  have h := translation_column sampleMath 1 2 3 (by simp [sampleMath]) (by simp [sampleMath])
  ⟨by simp [sampleMath], by simp [sampleMath], h.1, h.2.1, h.2.2.1, h.2.2.2.1⟩

/-! ## Theorems: scene composer -/

theorem uvScaleFrom_append (current : Option (ℚ × ℚ)) (a b : List BackendOp) :
    uvScaleFrom current (a ++ b) = uvScaleFrom (uvScaleFrom current a) b := by
  simp [uvScaleFrom, List.foldl_append]

theorem DrawBoxTex_ops (fm : FloatMath) (self : SceneManager)
    (hsm : self.m_pShaderManager = true) (S Rdeg T : Vec3) (tag : String) (uv : Vec2) (a : ℚ) :
    RenderScene.DrawBoxTex fm self S Rdeg T tag uv a =
      [.uniform "model" (.mat4 (SetTransformations.modelView fm S Rdeg.x Rdeg.y Rdeg.z T)),
       .uniform "UVscale" (.vec2 uv.x uv.y),
       .uniform "bUseTexture" (.int 0),
       .uniform "objectColor" (.vec4 1 1 1 a),
       .uniform "bUseTexture" (.int 1),
       .uniform "objectTexture" (.sampler2D (FindTextureSlot self.textures tag)),
       .draw .box,
       .uniform "UVscale" (.vec2 1 1)] := by
  simp [RenderScene.DrawBoxTex, SetTransformations, SetTextureUVScale, SetShaderColor,
    SetShaderTexture, hsm]

theorem DrawPlaneTex_ops (fm : FloatMath) (self : SceneManager)
    (hsm : self.m_pShaderManager = true) (S Rdeg T : Vec3) (tag : String) (uv : Vec2) (a : ℚ) :
    RenderScene.DrawPlaneTex fm self S Rdeg T tag uv a =
      [.uniform "model" (.mat4 (SetTransformations.modelView fm S Rdeg.x Rdeg.y Rdeg.z T)),
       .uniform "UVscale" (.vec2 uv.x uv.y),
       .uniform "bUseTexture" (.int 0),
       .uniform "objectColor" (.vec4 1 1 1 a),
       .uniform "bUseTexture" (.int 1),
       .uniform "objectTexture" (.sampler2D (FindTextureSlot self.textures tag)),
       .draw .plane,
       .uniform "UVscale" (.vec2 1 1)] := by
  simp [RenderScene.DrawPlaneTex, SetTransformations, SetTextureUVScale, SetShaderColor,
    SetShaderTexture, hsm]

theorem uvScaleFrom_DrawBoxTex (fm : FloatMath) (self : SceneManager)
    (hsm : self.m_pShaderManager = true) (S Rdeg T : Vec3) (tag : String) (uv : Vec2) (a : ℚ)
    (current : Option (ℚ × ℚ)) :
    uvScaleFrom current (RenderScene.DrawBoxTex fm self S Rdeg T tag uv a) = some (1, 1) := by
  rw [DrawBoxTex_ops fm self hsm]
  simp [uvScaleFrom]

theorem uvScaleFrom_DrawPlaneTex (fm : FloatMath) (self : SceneManager)
    (hsm : self.m_pShaderManager = true) (S Rdeg T : Vec3) (tag : String) (uv : Vec2) (a : ℚ)
    (current : Option (ℚ × ℚ)) :
    uvScaleFrom current (RenderScene.DrawPlaneTex fm self S Rdeg T tag uv a) = some (1, 1) := by
  rw [DrawPlaneTex_ops fm self hsm]
  simp [uvScaleFrom]

theorem uvScaleFrom_DrawBox (fm : FloatMath) (self : SceneManager) (S Rdeg T : Vec3)
    (RGBA : Vec4) (current : Option (ℚ × ℚ)) :
    uvScaleFrom current (RenderScene.DrawBox fm self S Rdeg T RGBA) = current := by
  cases h : self.m_pShaderManager <;>
    simp [RenderScene.DrawBox, SetTransformations, SetShaderColor, uvScaleFrom, h]

theorem uvScaleFrom_DrawSphere (fm : FloatMath) (self : SceneManager) (S Rdeg T : Vec3)
    (RGBA : Vec4) (current : Option (ℚ × ℚ)) :
    uvScaleFrom current (RenderScene.DrawSphere fm self S Rdeg T RGBA) = current := by
  cases h : self.m_pShaderManager <;>
    simp [RenderScene.DrawSphere, SetTransformations, SetShaderColor, uvScaleFrom, h]

theorem DrawBoxTex_null (fm : FloatMath) (self : SceneManager)
    (hsm : self.m_pShaderManager = false) (S Rdeg T : Vec3) (tag : String) (uv : Vec2) (a : ℚ) :
    RenderScene.DrawBoxTex fm self S Rdeg T tag uv a = [.draw .box] := by
  simp [RenderScene.DrawBoxTex, SetTransformations, SetTextureUVScale, SetShaderColor,
    SetShaderTexture, hsm]

/-- C15 (counterexample): with a null shader manager the guards of the bridge methods
(lines 303, 329, 345, 363) skip every uniform write: the wall draw of `RenderScene`
issues the box draw alone, the carpet draw the plane draw alone, and the UV-scale
uniform is never written, neither by a textured draw nor by the whole of `RenderScene`. -/
theorem textured_draw_with_null_shader_manager :
    nullScene.m_pShaderManager = false ∧
    RenderScene.DrawBoxTex sampleMath nullScene ⟨4, 22 / 10, 3 / 100⟩ ⟨0, 0, 0⟩
      ⟨0, 11 / 10, -(80 / 100)⟩ "TEX_WALL" ⟨3, 15 / 10⟩ 1 = [.draw .box] ∧
    RenderScene.DrawPlaneTex sampleMath nullScene ⟨8, 1, 8⟩ ⟨0, 0, 0⟩ ⟨0, -(2 / 1000), 0⟩
      "TEX_CARPET" ⟨6, 6⟩ 1 = [.draw .plane] ∧
    uvScaleAfter (RenderScene.DrawBoxTex sampleMath nullScene ⟨4, 22 / 10, 3 / 100⟩ ⟨0, 0, 0⟩
      ⟨0, 11 / 10, -(80 / 100)⟩ "TEX_WALL" ⟨3, 15 / 10⟩ 1) = none ∧
    uvScaleAfter (RenderScene sampleMath nullScene) = none := by
  have hn : nullScene.m_pShaderManager = false := rfl
  have hbox := DrawBoxTex_null sampleMath nullScene hn ⟨4, 22 / 10, 3 / 100⟩ ⟨0, 0, 0⟩
    ⟨0, 11 / 10, -(80 / 100)⟩ "TEX_WALL" ⟨3, 15 / 10⟩ 1
  refine ⟨hn, hbox, ?_, ?_, ?_⟩
  · simp [RenderScene.DrawPlaneTex, SetTransformations, SetTextureUVScale, SetShaderColor,
      SetShaderTexture, hn]
  · rw [hbox]
    rfl
  · simp [uvScaleAfter, uvScaleFrom, RenderScene, RenderScene.StandStack,
      RenderScene.DrawBoxTex, RenderScene.DrawPlaneTex, RenderScene.DrawBox,
      RenderScene.DrawCyl, RenderScene.DrawSphere, SetTransformations, SetTextureUVScale,
      SetShaderColor, SetShaderTexture, hn]

/-- C15 (amended): with a non-null shader manager, every call of the textured helpers `DrawBoxTex`
and `DrawPlaneTex`, for any scale, rotation, position, tag, uv and alpha, issues to the
backend exactly, in this order: the model transform, the UV scale uv, texturing off and
the color (1,1,1,alpha), texturing on and the sampler of the tag, the mesh draw, the UV
scale (1,1); hence the UV-scale uniform is (1,1) after every textured draw, whatever was
issued before it, and when `RenderScene` returns. -/
theorem textured_draw_order (fm : FloatMath) (self : SceneManager)
    (hsm : self.m_pShaderManager = true) (S Rdeg T : Vec3) (tag : String) (uv : Vec2) (a : ℚ) :
    RenderScene.DrawBoxTex fm self S Rdeg T tag uv a =
      [.uniform "model" (.mat4 (SetTransformations.modelView fm S Rdeg.x Rdeg.y Rdeg.z T)),
       .uniform "UVscale" (.vec2 uv.x uv.y),
       .uniform "bUseTexture" (.int 0),
       .uniform "objectColor" (.vec4 1 1 1 a),
       .uniform "bUseTexture" (.int 1),
       .uniform "objectTexture" (.sampler2D (FindTextureSlot self.textures tag)),
       .draw .box,
       .uniform "UVscale" (.vec2 1 1)] ∧
    RenderScene.DrawPlaneTex fm self S Rdeg T tag uv a =
      [.uniform "model" (.mat4 (SetTransformations.modelView fm S Rdeg.x Rdeg.y Rdeg.z T)),
       .uniform "UVscale" (.vec2 uv.x uv.y),
       .uniform "bUseTexture" (.int 0),
       .uniform "objectColor" (.vec4 1 1 1 a),
       .uniform "bUseTexture" (.int 1),
       .uniform "objectTexture" (.sampler2D (FindTextureSlot self.textures tag)),
       .draw .plane,
       .uniform "UVscale" (.vec2 1 1)] ∧
    (∀ before : List BackendOp,
      uvScaleAfter (before ++ RenderScene.DrawBoxTex fm self S Rdeg T tag uv a) = some (1, 1) ∧
      uvScaleAfter (before ++ RenderScene.DrawPlaneTex fm self S Rdeg T tag uv a) =
        some (1, 1)) ∧
    uvScaleAfter (RenderScene fm self) = some (1, 1) := by
  refine ⟨DrawBoxTex_ops fm self hsm S Rdeg T tag uv a,
    DrawPlaneTex_ops fm self hsm S Rdeg T tag uv a, fun before => ⟨?_, ?_⟩, ?_⟩
  · rw [uvScaleAfter, uvScaleFrom_append, uvScaleFrom_DrawBoxTex fm self hsm]
  · rw [uvScaleAfter, uvScaleFrom_append, uvScaleFrom_DrawPlaneTex fm self hsm]
  · unfold uvScaleAfter RenderScene
    simp only []
    rw [uvScaleFrom_append, uvScaleFrom_append, uvScaleFrom_append, uvScaleFrom_DrawSphere,
      uvScaleFrom_DrawBox, uvScaleFrom_DrawBoxTex fm self hsm]

/-- Witness for C15 (amended): the wall draw of `RenderScene` on the sample scene. -/
theorem textured_draw_order_witness :
    sampleScene.m_pShaderManager = true ∧
    RenderScene.DrawBoxTex sampleMath sampleScene ⟨4, 22 / 10, 3 / 100⟩ ⟨0, 0, 0⟩
        ⟨0, 11 / 10, -(80 / 100)⟩ "TEX_WALL" ⟨3, 15 / 10⟩ 1 =
      [.uniform "model" (.mat4 (SetTransformations.modelView sampleMath
          ⟨4, 22 / 10, 3 / 100⟩ 0 0 0 ⟨0, 11 / 10, -(80 / 100)⟩)),
       .uniform "UVscale" (.vec2 3 (15 / 10)),
       .uniform "bUseTexture" (.int 0),
       .uniform "objectColor" (.vec4 1 1 1 1),
       .uniform "bUseTexture" (.int 1),
       .uniform "objectTexture" (.sampler2D (FindTextureSlot sampleRegistry "TEX_WALL")),
       .draw .box,
       .uniform "UVscale" (.vec2 1 1)] ∧
    uvScaleAfter (RenderScene sampleMath sampleScene) = some (1, 1) :=
  have h := textured_draw_order sampleMath sampleScene rfl ⟨4, 22 / 10, 3 / 100⟩ ⟨0, 0, 0⟩
    ⟨0, 11 / 10, -(80 / 100)⟩ "TEX_WALL" ⟨3, 15 / 10⟩ 1
  ⟨rfl, h.1, h.2.2.2⟩

end Viewer
